import Mathlib

/-!
Shallow embedding of the metric-scoring engine of the cyber-investing
dashboard repository: the scorers and extractors of src/src/quality.py and
src/src/quality_cyber.py, and the valuation bucketer of src/dashboard_app.py.

Modelling conventions:
  * Python float values are modelled as rationals; the NaN sentinel (missing
    data) is modelled as Option.none, matching the np.isnan guards in the
    source.  Metrics dictionaries are modelled as total functions from
    String to Option Q, matching dict.get semantics (an absent key and a
    NaN value are both read back as missing).
  * The float power used by the safe CAGR helper is modelled over the reals
    with Real.rpow, because its output is irrational in general.
  * pandas DataFrames are modelled by the Table structure: a list of period
    keys (rows, ascending, as produced by sort_index), a list of column
    names and a valuation function; a Series column is read off in row
    order, dropna is List.filterMap, tail(k) keeps the last k entries and
    mean skips missing entries, as in pandas.
-/

set_option maxRecDepth 8000

/-- Round a rational to the nearest integer with halves going to the even
neighbour: the semantics of the builtin round of Python 3, which both
scorers apply to their final 0-100 value. -/
def pyRound (x : ℚ) : ℤ :=
  let f := ⌊x⌋
  let r := x - (f : ℚ)
  if r < 1/2 then f
  else if 1/2 < r then f + 1
  else if 2 ∣ f then f else f + 1

/-- Key of the universal ROIC proxy metric. -/
def kRoic : String := "roic_5y_avg"

/-- Key of the operating-margin stability metric. -/
def kStd : String := "op_margin_std_5y"

/-- Key of the revenue CAGR metric. -/
def kRevC : String := "rev_cagr_5y"

/-- Key of the EPS CAGR metric. -/
def kEpsC : String := "eps_cagr_5y"

/-- Key of the debt-to-equity metric. -/
def kDte : String := "debt_to_equity"

/-- Key of the universal quality score. -/
def kQuality : String := "quality_score"

/-- Key of the ARR growth metric. -/
def kArr : String := "arr_growth"

/-- Key of the average gross margin metric. -/
def kGm : String := "gross_margin_avg"

/-- Key of the gross margin trend metric. -/
def kGmTr : String := "gross_margin_trend"

/-- Key of the free-cash-flow margin metric. -/
def kFcf : String := "fcf_margin"

/-- Key of the Rule of 40 metric. -/
def kR40 : String := "rule_of_40"

/-- Key of the sales-and-marketing efficiency metric. -/
def kSga : String := "sga_eff"

/-- Key of the research-and-development efficiency metric. -/
def kRd : String := "rd_eff"

/-- Key of the growth-heavy cyber score. -/
def kGrowth : String := "growth_score"

/-- Key of the profitability-heavy cyber score. -/
def kProf : String := "profitability_score"

/-- Key of the balanced cyber score. -/
def kBal : String := "balanced_score"

/-- Income-statement column name for total revenue. -/
def kTotalRevenue : String := "Total Revenue"

/-- Income-statement column name for operating income. -/
def kOperatingIncome : String := "Operating Income"

/-- Income-statement column name for net income. -/
def kNetIncome : String := "Net Income"

/-- Balance-sheet column name for stockholder equity. -/
def kEquity : String := "Total Stockholder Equity"

/-- Balance-sheet column name for total liabilities. -/
def kTotalLiab : String := "Total Liab"

/-- Cash-flow column name for operating cash flow. -/
def kOCF : String := "Operating Cash Flow"

/-- Cash-flow column name for capital expenditure. -/
def kCapex : String := "Capital Expenditure"

/-- First (canonical) SGA alias of quality_cyber.py lines 109-118. -/
def kSGA1 : String := "Selling General Administrative"

/-- Second SGA alias of quality_cyber.py lines 109-118. -/
def kSGA2 : String := "SellingGeneralAdministrative"

/-- A metrics dictionary: total map from metric name to defined value or
missing, mirroring dict.get which returns None or NaN for absent data. -/
def MetricsRecord : Type := String → Option ℚ

/-- The empty metrics dictionary. -/
def emptyM : MetricsRecord := fun _ => none

/-- Dictionary update (functional model of assigning one key). -/
def upd (m : MetricsRecord) (k : String) (v : Option ℚ) : MetricsRecord :=
  fun q => if q = k then v else m q

/-- Points contributed by one metric: 0 when the metric is missing (the
np.isnan guard in the source skips the whole tier ladder), otherwise the
value of the tier ladder. -/
def optPts (f : ℚ → ℤ) : Option ℚ → ℤ
  | none => 0
  | some x => f x

/-- Tier ladder for the ROIC proxy, quality.py lines 106-115 (30 points). -/
def roic_points (roic : ℚ) : ℤ :=
  if roic ≥ 0.20 then 30
  else if roic ≥ 0.15 then 25
  else if roic ≥ 0.10 then 15
  else if roic ≥ 0.05 then 5
  else 0

/-- Tier ladder for operating-margin stability, quality.py lines 119-128
(20 points, lower is better). -/
def opstd_points (op_std : ℚ) : ℤ :=
  if op_std ≤ 0.02 then 20
  else if op_std ≤ 0.05 then 15
  else if op_std ≤ 0.08 then 8
  else if op_std ≤ 0.12 then 3
  else 0

/-- Tier ladder shared by revenue CAGR (quality.py lines 132-141) and EPS
CAGR (lines 145-154), which are textually identical in the source
(15 points each). -/
def cagr_points (cagr : ℚ) : ℤ :=
  if cagr ≥ 0.15 then 15
  else if cagr ≥ 0.10 then 12
  else if cagr ≥ 0.05 then 7
  else if cagr ≥ 0.02 then 3
  else 0

/-- Tier ladder for debt-to-equity, quality.py lines 158-167 (20 points,
lower is better). -/
def dte_points (dte : ℚ) : ℤ :=
  if dte ≤ 0.5 then 20
  else if dte ≤ 1.0 then 15
  else if dte ≤ 1.5 then 8
  else if dte ≤ 2.0 then 3
  else 0

/-- Rule-of-40 ladder of the growth-heavy score, quality_cyber.py lines
202-212 (40 points). -/
def r40_growth_points (r40 : ℚ) : ℤ :=
  if r40 ≥ 60 then 40
  else if r40 ≥ 50 then 32
  else if r40 ≥ 40 then 24
  else if r40 ≥ 30 then 16
  else if r40 ≥ 20 then 8
  else 0

/-- ARR ladder of the growth-heavy score, quality_cyber.py lines 216-226
(40 points). -/
def arr_growth_points (arr : ℚ) : ℤ :=
  if arr ≥ 0.35 then 40
  else if arr ≥ 0.25 then 32
  else if arr ≥ 0.18 then 24
  else if arr ≥ 0.12 then 16
  else if arr ≥ 0.08 then 8
  else 0

/-- Gross-margin ladder of the growth-heavy score, quality_cyber.py lines
230-238 (20 points). -/
def gm_growth_points (gm : ℚ) : ℤ :=
  if gm ≥ 0.80 then 20
  else if gm ≥ 0.75 then 16
  else if gm ≥ 0.70 then 12
  else if gm ≥ 0.65 then 8
  else 0

/-- FCF-margin ladder of the profitability-heavy score, quality_cyber.py
lines 248-258 (40 points). -/
def fcf_prof_points (fcf_m : ℚ) : ℤ :=
  if fcf_m ≥ 0.30 then 40
  else if fcf_m ≥ 0.20 then 32
  else if fcf_m ≥ 0.15 then 24
  else if fcf_m ≥ 0.10 then 16
  else if fcf_m ≥ 0.05 then 8
  else 0

/-- Gross-margin ladder of the profitability-heavy score, quality_cyber.py
lines 262-270 (30 points). -/
def gm_prof_points (gm : ℚ) : ℤ :=
  if gm ≥ 0.80 then 30
  else if gm ≥ 0.75 then 24
  else if gm ≥ 0.70 then 18
  else if gm ≥ 0.65 then 12
  else 0

/-- SGA ladder of the profitability-heavy score, quality_cyber.py lines
274-282 (15 points, lower is better). -/
def sga_prof_points (sga : ℚ) : ℤ :=
  if sga ≤ 0.30 then 15
  else if sga ≤ 0.40 then 12
  else if sga ≤ 0.50 then 9
  else if sga ≤ 0.60 then 6
  else 0

/-- RD ladder of the profitability-heavy score, quality_cyber.py lines
286-292 (15 points, sweet-spot band). -/
def rd_prof_points (rd : ℚ) : ℤ :=
  if 0.10 ≤ rd ∧ rd ≤ 0.20 then 15
  else if (0.08 ≤ rd ∧ rd < 0.10) ∨ (0.20 < rd ∧ rd ≤ 0.25) then 12
  else if (0.05 ≤ rd ∧ rd < 0.08) ∨ (0.25 < rd ∧ rd ≤ 0.30) then 9
  else 0

/-- Rule-of-40 sub-ladder of the balanced growth component, quality_cyber.py
lines 306-315 (20 sub-points). -/
def r40_bal_points (r40 : ℚ) : ℤ :=
  if r40 ≥ 60 then 20
  else if r40 ≥ 50 then 16
  else if r40 ≥ 40 then 12
  else if r40 ≥ 30 then 8
  else 0

/-- ARR sub-ladder of the balanced growth component, quality_cyber.py lines
317-326 (15 sub-points). -/
def arr_bal_points (arr : ℚ) : ℤ :=
  if arr ≥ 0.30 then 15
  else if arr ≥ 0.20 then 12
  else if arr ≥ 0.12 then 9
  else if arr ≥ 0.08 then 6
  else 0

/-- FCF sub-ladder of the balanced profitability component, quality_cyber.py
lines 336-345 (20 sub-points). -/
def fcf_bal_points (fcf_m : ℚ) : ℤ :=
  if fcf_m ≥ 0.25 then 20
  else if fcf_m ≥ 0.18 then 16
  else if fcf_m ≥ 0.12 then 12
  else if fcf_m ≥ 0.07 then 8
  else 0

/-- Gross-margin sub-ladder of the balanced profitability component,
quality_cyber.py lines 347-356 (15 sub-points). -/
def gm_bal_points (gm : ℚ) : ℤ :=
  if gm ≥ 0.78 then 15
  else if gm ≥ 0.73 then 12
  else if gm ≥ 0.68 then 9
  else if gm ≥ 0.63 then 6
  else 0

/-- SGA sub-ladder of the balanced efficiency component, quality_cyber.py
lines 366-373 (10 sub-points, lower is better). -/
def sga_bal_points (sga : ℚ) : ℤ :=
  if sga ≤ 0.35 then 10
  else if sga ≤ 0.45 then 8
  else if sga ≤ 0.55 then 6
  else 0

/-- RD sub-ladder of the balanced efficiency component, quality_cyber.py
lines 375-382 (10 sub-points, sweet-spot band). -/
def rd_bal_points (rd : ℚ) : ℤ :=
  if 0.10 ≤ rd ∧ rd ≤ 0.20 then 10
  else if (0.08 ≤ rd ∧ rd < 0.10) ∨ (0.20 < rd ∧ rd ≤ 0.25) then 8
  else if (0.05 ≤ rd ∧ rd < 0.08) ∨ (0.25 < rd ∧ rd ≤ 0.30) then 6
  else 0

/-- Gross-margin-trend sub-ladder of the balanced efficiency component,
quality_cyber.py lines 384-391 (10 sub-points). -/
def gmtr_bal_points (gm_tr : ℚ) : ℤ :=
  if gm_tr ≥ 0.03 then 10
  else if gm_tr ≥ 0.02 then 8
  else if gm_tr ≥ 0.01 then 6
  else 0

/-- Achieved points of the universal quality scorer, quality.py lines
101-167: the sum of the five tier ladders, each skipped (contributing 0)
when its metric is missing. -/
def qualityS (m : MetricsRecord) : ℤ :=
  optPts roic_points (m kRoic) + optPts opstd_points (m kStd) +
  optPts cagr_points (m kRevC) + optPts cagr_points (m kEpsC) +
  optPts dte_points (m kDte)

/-- Achieved points of the growth-heavy cyber score, quality_cyber.py lines
197-238. -/
def growthS (m : MetricsRecord) : ℤ :=
  optPts r40_growth_points (m kR40) + optPts arr_growth_points (m kArr) +
  optPts gm_growth_points (m kGm)

/-- Achieved points of the profitability-heavy cyber score, quality_cyber.py
lines 243-292. -/
def profS (m : MetricsRecord) : ℤ :=
  optPts fcf_prof_points (m kFcf) + optPts gm_prof_points (m kGm) +
  optPts sga_prof_points (m kSga) + optPts rd_prof_points (m kRd)

/-- Achieved sub-points of the balanced growth component, quality_cyber.py
lines 303-326. -/
def gcS (m : MetricsRecord) : ℤ :=
  optPts r40_bal_points (m kR40) + optPts arr_bal_points (m kArr)

/-- Achieved sub-points of the balanced profitability component,
quality_cyber.py lines 333-356. -/
def pcS (m : MetricsRecord) : ℤ :=
  optPts fcf_bal_points (m kFcf) + optPts gm_bal_points (m kGm)

/-- Achieved sub-points of the balanced efficiency component,
quality_cyber.py lines 363-391. -/
def ecS (m : MetricsRecord) : ℤ :=
  optPts sga_bal_points (m kSga) + optPts rd_bal_points (m kRd) +
  optPts gmtr_bal_points (m kGmTr)

/-- Total achieved points of the balanced score (sum of the three component
numerators). -/
def balS (m : MetricsRecord) : ℤ := gcS m + pcS m + ecS m

/-- The universal quality scorer, quality.py lines 95-174.  The five
max_score increments (30, 20, 15, 15, 20) happen unconditionally in the
source, before each np.isnan guard, so the denominator is the constant 100;
the result dictionary is the input with the quality_score key set. -/
def score_quality (m : MetricsRecord) : MetricsRecord :=
  let score : ℤ := qualityS m
  let max_score : ℤ := 30 + 20 + 15 + 15 + 20
  let quality_score : Option ℚ :=
    if 0 < max_score then
      some (((pyRound ((100 * (score : ℚ)) / (max_score : ℚ))) : ℤ) : ℚ)
    else none
  fun k => if k = kQuality then quality_score else m k

/-- The growth-heavy score value, quality_cyber.py lines 197-240.  The
g_max increments (40, 40, 20) are unconditional in the source. -/
def growth_score_val (m : MetricsRecord) : Option ℚ :=
  let g_score : ℤ := growthS m
  let g_max : ℤ := 40 + 40 + 20
  if 0 < g_max then
    some (((pyRound ((100 * (g_score : ℚ)) / (g_max : ℚ))) : ℤ) : ℚ)
  else none

/-- The profitability-heavy score value, quality_cyber.py lines 243-294.
The p_max increments (40, 30, 15, 15) are unconditional in the source. -/
def prof_score_val (m : MetricsRecord) : Option ℚ :=
  let p_score : ℤ := profS m
  let p_max : ℤ := 40 + 30 + 15 + 15
  if 0 < p_max then
    some (((pyRound ((100 * (p_score : ℚ)) / (p_max : ℚ))) : ℤ) : ℚ)
  else none

/-- The balanced score value, quality_cyber.py lines 296-396.  All
component_max increments (20+15, 20+15, 10+10+10) and all b_max increments
(35, 35, 30) are unconditional in the source; only the achieved points are
guarded by np.isnan. -/
def balanced_score_val (m : MetricsRecord) : Option ℚ :=
  let growth_component : ℤ := gcS m
  let growth_component_max : ℤ := 20 + 15
  let prof_component : ℤ := pcS m
  let prof_component_max : ℤ := 20 + 15
  let eff_component : ℤ := ecS m
  let eff_component_max : ℤ := 10 + 10 + 10
  let b_score : ℚ := 0
  let b_score :=
    if 0 < growth_component_max then
      b_score + 35 * ((growth_component : ℚ) / (growth_component_max : ℚ))
    else b_score
  let b_score :=
    if 0 < prof_component_max then
      b_score + 35 * ((prof_component : ℚ) / (prof_component_max : ℚ))
    else b_score
  let b_score :=
    if 0 < eff_component_max then
      b_score + 30 * ((eff_component : ℚ) / (eff_component_max : ℚ))
    else b_score
  let b_max : ℤ := 35 + 35 + 30
  if 0 < b_max then
    some (((pyRound ((100 * b_score) / (b_max : ℚ))) : ℤ) : ℚ)
  else none

/-- The cyber style scorer, quality_cyber.py lines 178-403: the input
dictionary with the three score keys set. -/
def score_cyber_styles (m : MetricsRecord) : MetricsRecord :=
  fun k =>
    if k = kGrowth then growth_score_val m
    else if k = kProf then prof_score_val m
    else if k = kBal then balanced_score_val m
    else m k

/-- The achieved-points function f is monotone nondecreasing in the metric
stored at key k. -/
def MonoAt (f : MetricsRecord → ℤ) (k : String) : Prop :=
  ∀ (m : MetricsRecord) (x y : ℚ), x ≤ y → f (upd m k (some x)) ≤ f (upd m k (some y))

/-- The achieved-points function f is monotone nonincreasing in the metric
stored at key k. -/
def AntiAt (f : MetricsRecord → ℤ) (k : String) : Prop :=
  ∀ (m : MetricsRecord) (x y : ℚ), x ≤ y → f (upd m k (some y)) ≤ f (upd m k (some x))

/-- Modelled from the spec wording of the claims: a universal quality
scorer whose achievable denominator counts only the weights of metrics that
are defined, so that missing data shrinks the denominator instead of
scoring zero points against the full 100. -/
def score_quality_specShrink (m : MetricsRecord) : Option ℚ :=
  let score : ℤ := qualityS m
  let max_score : ℤ :=
    (if (m kRoic).isSome then 30 else 0) + (if (m kStd).isSome then 20 else 0) +
    (if (m kRevC).isSome then 15 else 0) + (if (m kEpsC).isSome then 15 else 0) +
    (if (m kDte).isSome then 20 else 0)
  if 0 < max_score then
    some (((pyRound ((100 * (score : ℚ)) / (max_score : ℚ))) : ℤ) : ℚ)
  else none

/-- Modelled from the spec wording of the claims: a balanced score in which
each component achievable total counts only the sub-weights of metrics that
are defined (a component with no defined input is skipped, as by the
source-level positivity guard). -/
def balanced_specShrink (m : MetricsRecord) : Option ℚ :=
  let growth_component : ℤ := gcS m
  let growth_component_max : ℤ :=
    (if (m kR40).isSome then 20 else 0) + (if (m kArr).isSome then 15 else 0)
  let prof_component : ℤ := pcS m
  let prof_component_max : ℤ :=
    (if (m kFcf).isSome then 20 else 0) + (if (m kGm).isSome then 15 else 0)
  let eff_component : ℤ := ecS m
  let eff_component_max : ℤ :=
    (if (m kSga).isSome then 10 else 0) + (if (m kRd).isSome then 10 else 0) +
    (if (m kGmTr).isSome then 10 else 0)
  let b_score : ℚ :=
    (if 0 < growth_component_max then
      35 * ((growth_component : ℚ) / (growth_component_max : ℚ)) else 0) +
    (if 0 < prof_component_max then
      35 * ((prof_component : ℚ) / (prof_component_max : ℚ)) else 0) +
    (if 0 < eff_component_max then
      30 * ((eff_component : ℚ) / (eff_component_max : ℚ)) else 0)
  let b_max : ℤ := 35 + 35 + 30
  if 0 < b_max then
    some (((pyRound ((100 * b_score) / (b_max : ℚ))) : ℤ) : ℚ)
  else none

/-- The safe CAGR helper, quality.py lines 7-13 and quality_cyber.py lines
8-13 (textually identical).  The guards are exact; the defined branch is
the real-number power (end over start) to the 1 over years, minus one.  The
parameter end of the source is renamed endv (Lean keyword). -/
noncomputable def _safe_cagr (start endv : ℝ) (years : ℤ) : Option ℝ :=
  if years ≤ 0 then none
  else if start ≤ 0 ∨ endv ≤ 0 then none
  else some ((endv / start) ^ ((1 : ℝ) / (years : ℝ)) - 1)

/-- A financial-statement table: period keys in ascending row order (the
source applies sort_index first), column names, and the cell values; a
missing cell is none (NaN). -/
structure Table where
  rows : List ℕ
  cols : List String
  val : ℕ → String → Option ℚ

/-- The non-missing values of one column in row order: df of c followed by
dropna. -/
def colVals (t : Table) (c : String) : List ℚ :=
  t.rows.filterMap (fun p => t.val p c)

/-- The last n entries of a list: Series.tail(n). -/
def tailN (n : ℕ) (l : List α) : List α :=
  l.drop (l.length - n)

/-- Mean of a series that skips missing entries, as pandas Series.mean
does; none when no entry is defined (the mean of an all-NaN series is
NaN). -/
def meanSkip (l : List (Option ℚ)) : Option ℚ :=
  let vals := l.filterMap id
  if vals.length = 0 then none else some (vals.sum / (vals.length : ℚ))

/-- Index intersection of two tables, in the row order of the first:
income.index.intersection(balance.index) for ascending indexes. -/
def commonIdx (income balance : Table) : List ℕ :=
  income.rows.filter (fun p => decide (p ∈ balance.rows))

/-- The ROIC (ROE proxy) block of compute_quality_metrics, quality.py lines
37-45: align the two statements on their common period index, divide net
income by equity with zeros replaced by NaN, take the last five entries of
that series and average them with pandas NaN-skipping mean. -/
def roic_5y_avg_of (income balance : Table) : Option ℚ :=
  if kNetIncome ∈ income.cols ∧ kEquity ∈ balance.cols then
    let common_index := commonIdx income balance
    let roe_series : List (Option ℚ) := common_index.map (fun p =>
      match income.val p kNetIncome,
            (match balance.val p kEquity with
             | some e => if e = 0 then none else some e
             | none => none) with
      | some ni, some e => some (ni / e)
      | _, _ => none)
    meanSkip (tailN 5 roe_series)
  else none

/-- Modelled from the spec wording of the claims: the mean of net income
over equity taken over the last at-most-five period keys at which both
values exist at the same period key. -/
def roic_5y_avg_specModel (income balance : Table) : Option ℚ :=
  if kNetIncome ∈ income.cols ∧ kEquity ∈ balance.cols then
    let joint := income.rows.filter (fun p =>
      decide (p ∈ balance.rows) && (income.val p kNetIncome).isSome &&
      (balance.val p kEquity).isSome)
    let window := tailN 5 joint
    if window.length = 0 then none
    else
      some (((window.map (fun p =>
        (income.val p kNetIncome).getD 0 / (balance.val p kEquity).getD 0)).sum)
        / (window.length : ℚ))
  else none

/-- The FCF-margin block of compute_cyber_metrics, quality_cyber.py lines
85-100: the three series are each dropna-ed and tail(1)-ed independently,
then combined; NaN if any of the three latest windows is empty or revenue
is zero. -/
def fcf_margin_of (income cashflow : Table) : Option ℚ :=
  if kOCF ∈ cashflow.cols ∧ kCapex ∈ cashflow.cols ∧ kTotalRevenue ∈ income.cols then
    let ocf_latest := tailN 1 (colVals cashflow kOCF)
    let capex_latest := tailN 1 (colVals cashflow kCapex)
    let rev_latest_cf := tailN 1 (colVals income kTotalRevenue)
    match ocf_latest, capex_latest, rev_latest_cf with
    | [o], [c], [r] =>
      if r ≠ 0 then some ((o + c) / r) else none
    | _, _, _ => none
  else none

/-- Modelled from the spec wording of the claims: operating cash flow plus
capital expenditure over revenue, all three evaluated at the single latest
period at which all three values are present together; none when no period
has all three. -/
def fcf_margin_specModel (income cashflow : Table) : Option ℚ :=
  let joint := cashflow.rows.filter (fun p =>
    decide (p ∈ income.rows) && (cashflow.val p kOCF).isSome &&
    (cashflow.val p kCapex).isSome && (income.val p kTotalRevenue).isSome)
  match joint.getLast? with
  | some p =>
    let r := (income.val p kTotalRevenue).getD 0
    if r ≠ 0 then
      some (((cashflow.val p kOCF).getD 0 + (cashflow.val p kCapex).getD 0) / r)
    else none
  | none => none

/-- The debt-to-equity block of compute_quality_metrics, quality.py lines
78-84, for a nonempty balance table: read the last row; the membership
guard of the source catches only a zero equity (the NaN case compares
unequal in Python), and a NaN operand then propagates through the
division. -/
def debt_to_equity_of (balance : Table) : Option ℚ :=
  match tailN 1 balance.rows with
  | [p] =>
    let total_debt := balance.val p kTotalLiab
    let total_equity := balance.val p kEquity
    match total_equity with
    | some e =>
      if e = 0 then none
      else match total_debt with
        | some d => some (d / e)
        | none => none
    | none => none
  | _ => none

/-- Errors that compute_quality_metrics can raise: the explicit ValueError
of quality.py lines 30-33 naming the missing column and the symbol, and the
IndexError of balance.iloc[-1] on a frame with no rows (line 79). -/
inductive QError where
  | missingColumn (col symbol : String)
  | indexErr
deriving DecidableEq

/-- Control flow of compute_quality_metrics, quality.py lines 16-92, with
its two possible raises.  The blocks elided from the returned value (the
operating-margin standard deviation and the two CAGR figures) perform no
partial operation: every iloc in them is guarded by a length check and the
float power of the safe CAGR is applied to positive operands only, so they
cannot raise; their values are real-valued and are modelled separately
(see _safe_cagr).  The returned pair carries the two rational-valued
metrics (roic_5y_avg and debt_to_equity). -/
def compute_quality_metrics (symbol : String) (income balance : Table) :
    Except QError (Option ℚ × Option ℚ) :=
  if kTotalRevenue ∉ income.cols then
    Except.error (QError.missingColumn kTotalRevenue symbol)
  else if kOperatingIncome ∉ income.cols then
    Except.error (QError.missingColumn kOperatingIncome symbol)
  else
    let roic_5y_avg := roic_5y_avg_of income balance
    if kTotalLiab ∈ balance.cols ∧ kEquity ∈ balance.cols then
      if balance.rows.isEmpty then Except.error QError.indexErr
      else Except.ok (roic_5y_avg, debt_to_equity_of balance)
    else Except.ok (roic_5y_avg, none)

/-- Return the first column from candidates that exists in the columns of
the table, quality_cyber.py lines 16-24. -/
def _first_existing_column (t : Table) (candidates : List String) : Option String :=
  candidates.find? (fun c => decide (c ∈ t.cols))

/-- The SGA alias list of quality_cyber.py lines 109-118. -/
def sga_candidates : List String :=
  [kSGA1, kSGA2, "Sales General Administrative", "SG&A",
   "Selling, General & Administrative"]

/-- The RD alias list of quality_cyber.py lines 131-140. -/
def rd_candidates : List String :=
  ["Research Development", "ResearchAndDevelopment",
   "ResearchAndDevelopmentExpenses", "Research & Development", "R D"]

/-- The ticker-to-10K-URL table of quality_cyber.py lines 29-36: empty in
the source (all entries are commented out), so the SEC fallback branch is
dead code. -/
def TEN_K_URLS : List (String × String) := []

/-- The SGA-efficiency block of compute_cyber_metrics, quality_cyber.py
lines 109-128 (before the SEC fallback). -/
def sga_eff_raw (income : Table) : Option ℚ :=
  match _first_existing_column income sga_candidates with
  | some sga_col =>
    if kTotalRevenue ∈ income.cols then
      match tailN 1 (colVals income sga_col), tailN 1 (colVals income kTotalRevenue) with
      | [s], [r] => if r ≠ 0 then some (s / r) else none
      | _, _ => none
    else none
  | none => none

/-- The RD-efficiency block of compute_cyber_metrics, quality_cyber.py
lines 131-150 (before the SEC fallback). -/
def rd_eff_raw (income : Table) : Option ℚ :=
  match _first_existing_column income rd_candidates with
  | some rd_col =>
    if kTotalRevenue ∈ income.cols then
      match tailN 1 (colVals income rd_col), tailN 1 (colVals income kTotalRevenue) with
      | [s], [r] => if r ≠ 0 then some (s / r) else none
      | _, _ => none
    else none
  | none => none

/-- The SGA and RD efficiency computation of compute_cyber_metrics
including the SEC 10-K fallback of quality_cyber.py lines 153-165; scrape
models the external get_rd_sga_from_10k_url collaborator (none models a
caught exception).  Since TEN_K_URLS is empty, the fallback never fires.
Returns the pair (sga_eff, rd_eff). -/
def compute_sga_rd (symbol : String) (income : Table)
    (scrape : String → Option (Option ℚ × Option ℚ)) : Option ℚ × Option ℚ :=
  let sga_eff := sga_eff_raw income
  let rd_eff := rd_eff_raw income
  match TEN_K_URLS.lookup symbol with
  | some url =>
    if sga_eff = none ∨ rd_eff = none then
      match scrape url with
      | some (rd_val, sga_val) =>
        if kTotalRevenue ∈ income.cols then
          match tailN 1 (colVals income kTotalRevenue) with
          | [r] =>
            if r ≠ 0 then
              ((if sga_eff = none then
                  match sga_val with | some v => some (v / r) | none => sga_eff
                else sga_eff),
               (if rd_eff = none then
                  match rd_val with | some v => some (v / r) | none => rd_eff
                else rd_eff))
            else (sga_eff, rd_eff)
          | _ => (sga_eff, rd_eff)
        else (sga_eff, rd_eff)
      | none => (sga_eff, rd_eff)
    else (sga_eff, rd_eff)
  | none => (sga_eff, rd_eff)

/-- One cohort row of the valuation bucketer: the three raw valuation
fields, each possibly missing. -/
structure VRow where
  ps : Option ℚ
  pe : Option ℚ
  fcf_yield : Option ℚ

/-- One output row of the valuation bucketer. -/
structure VOut where
  row : VRow
  ps_rank : ℚ
  pe_rank : ℚ
  fcf_rank : ℚ
  valuation_score : ℚ
  valuation_bucket : String

/-- Percentile rank (pandas rank with the default average method and
pct=True) of the value v within the defined entries of the column. -/
def rankPctAt (vals : List (Option ℚ)) (v : ℚ) : ℚ :=
  let defined := vals.filterMap id
  let n := defined.length
  let c_lt := (defined.filter (fun w => decide (w < v))).length
  let c_le := (defined.filter (fun w => decide (w ≤ v))).length
  (((c_lt : ℚ) + (c_le : ℚ) + 1) / 2) / (n : ℚ)

/-- Series.rank(pct=True): missing entries keep a missing rank. -/
def rankSeries (vals : List (Option ℚ)) : List (Option ℚ) :=
  vals.map (fun ov => ov.map (rankPctAt vals))

/-- Insert into an ascending list. -/
def insertSorted (x : ℚ) : List ℚ → List ℚ
  | [] => [x]
  | y :: ys => if x ≤ y then x :: y :: ys else y :: insertSorted x ys

/-- Ascending insertion sort (the sorted order pandas quantile uses). -/
def sortAsc (l : List ℚ) : List ℚ := l.foldr insertSorted []

/-- Series.quantile(q) with the default linear interpolation: position
q * (n - 1) in the ascending order, interpolated between the two
neighbouring order statistics. -/
def quantileQ (q : ℚ) (l : List ℚ) : ℚ :=
  let s := sortAsc l
  let n := s.length
  let h : ℚ := q * ((n : ℚ) - 1)
  let i : ℕ := (⌊h⌋).toNat
  let lo := s.getD i 0
  let hi := s.getD (i + 1) lo
  lo + (h - (⌊h⌋ : ℚ)) * (hi - lo)

/-- Bucket label Cheap. -/
def sCheap : String := "Cheap"

/-- Bucket label Neutral. -/
def sNeutral : String := "Neutral"

/-- Bucket label Expensive. -/
def sExpensive : String := "Expensive"

/-- Zip the six per-row result lists back into output rows. -/
def assemble : List VRow → List ℚ → List ℚ → List ℚ → List ℚ → List String → List VOut
  | r :: rs, a :: as, b :: bs, c :: cs, v :: vs, s :: ss =>
    ⟨r, a, b, c, v, s⟩ :: assemble rs as bs cs vs ss
  | _, _, _, _, _, _ => []

/-- The valuation bucketer, dashboard_app.py lines 24-60, for a cohort in
which the three columns are present (the source falls back to a constant
0.5 rank when a whole column is absent; an absent column and an all-missing
column produce the same ranks).  ps and pe ranks are inverted percentiles,
fcf rank is direct, missing entries get rank 0.5 after fillna, the blended
score is the mean of the three ranks, and buckets come from the 0.66 and
0.33 quantiles of the blended score. -/
def add_valuation_signals (df : List VRow) : List VOut :=
  let ps_rank := (rankSeries (df.map (fun r => r.ps))).map
    (fun o => match o with | some r => 1 - r | none => (0.5 : ℚ))
  let pe_rank := (rankSeries (df.map (fun r => r.pe))).map
    (fun o => match o with | some r => 1 - r | none => (0.5 : ℚ))
  let fcf_rank := (rankSeries (df.map (fun r => r.fcf_yield))).map
    (fun o => o.getD (0.5 : ℚ))
  let valuation_score :=
    List.zipWith (fun a bc => (a + bc.1 + bc.2) / 3) ps_rank (pe_rank.zip fcf_rank)
  let cheap_thr := quantileQ (0.66 : ℚ) valuation_score
  let exp_thr := quantileQ (0.33 : ℚ) valuation_score
  let buckets := valuation_score.map (fun v =>
    if cheap_thr ≤ v then sCheap else if v ≤ exp_thr then sExpensive else sNeutral)
  assemble df ps_rank pe_rank fcf_rank valuation_score buckets

/-- The three-company cohort of the §4.6 fixture: ps 10, 20, 30; pe 15, 25,
35; fcf_yield 0.08, 0.05, 0.02. -/
def cohort3 : List VRow :=
  [⟨some 10, some 15, some 0.08⟩, ⟨some 20, some 25, some 0.05⟩,
   ⟨some 30, some 35, some 0.02⟩]


/-- Metrics record with only arr_growth defined (0.30). -/
def mBalArr : MetricsRecord := upd emptyM kArr (some 0.30)

/-- Metrics record with arr_growth 0.30, fcf_margin 0.25 and
gross_margin_trend 0.03 defined and every other metric missing: each
balanced component has exactly one defined input. -/
def mBal3 : MetricsRecord :=
  upd (upd (upd emptyM kArr (some 0.30)) kFcf (some 0.25)) kGmTr (some 0.03)

/-- Metrics record with only roic_5y_avg defined (0.25). -/
def mRoicOnly : MetricsRecord := upd emptyM kRoic (some 0.25)

/-- Metrics record with only op_margin_std_5y defined (0.01). -/
def mStdLo : MetricsRecord := upd emptyM kStd (some 0.01)

/-- Metrics record with only op_margin_std_5y defined (0.06). -/
def mStdHi : MetricsRecord := upd emptyM kStd (some 0.06)

/-- Metrics record whose only entry is a pre-existing quality_score key. -/
def mQKey : MetricsRecord := upd emptyM kQuality (some 50)

/-- A company symbol used by the concrete statements. -/
def symACME : String := "ACME"

/-- Income table for the FCF-margin counterexample: revenue 100 at period 1
and 200 at period 2. -/
def incC5 : Table :=
  ⟨[1, 2], [kTotalRevenue],
   fun p c =>
     if c = kTotalRevenue then
       (if p = 1 then some 100 else if p = 2 then some 200 else none)
     else none⟩

/-- Cash-flow table for the FCF-margin counterexample: operating cash flow
present at periods 1 and 2, capital expenditure present only at period 1. -/
def cfC5 : Table :=
  ⟨[1, 2], [kOCF, kCapex],
   fun p c =>
     if c = kOCF then (if p = 1 then some 10 else if p = 2 then some 20 else none)
     else if c = kCapex then (if p = 1 then some (-4) else none)
     else none⟩

/-- Income table for the ROIC counterexample: six periods, net income 50 at
period 1, 10 at periods 2 to 5, missing at period 6. -/
def incC6 : Table :=
  ⟨[1, 2, 3, 4, 5, 6], [kTotalRevenue, kOperatingIncome, kNetIncome],
   fun p c =>
     if c = kNetIncome then
       (if p = 1 then some 50 else if p ≤ 5 then some 10 else none)
     else none⟩

/-- Balance table for the ROIC counterexample: equity 100 at all six
periods. -/
def balC6 : Table :=
  ⟨[1, 2, 3, 4, 5, 6], [kEquity], fun _ c => if c = kEquity then some 100 else none⟩

/-- Income table for the ROIC witness: two periods with net income 10 at
both. -/
def incC6w : Table :=
  ⟨[1, 2], [kTotalRevenue, kOperatingIncome, kNetIncome],
   fun _ c => if c = kNetIncome then some 10 else none⟩

/-- Balance table for the ROIC witness: equity 100 at both periods. -/
def balC6w : Table :=
  ⟨[1, 2], [kEquity], fun _ c => if c = kEquity then some 100 else none⟩

/-- Income table with the two required concepts declared (values all
missing, which the source tolerates). -/
def incC7 : Table := ⟨[1], [kTotalRevenue, kOperatingIncome], fun _ _ => none⟩

/-- Balance table that declares the liabilities and equity columns but
holds no rows: balance.iloc[-1] raises IndexError on it. -/
def balC7 : Table := ⟨[], [kTotalLiab, kEquity], fun _ _ => none⟩

/-- Balance table with the same columns and one row of missing values. -/
def balC7b : Table := ⟨[1], [kTotalLiab, kEquity], fun _ _ => none⟩

/-- Common value function of the two renamed SGA tables: revenue 100 at the
single period. -/
def baseVal9 : ℕ → String → Option ℚ :=
  fun p c => if c = kTotalRevenue then (if p = 1 then some 100 else none) else none

/-- SGA series of the two renamed SGA tables: 40 at the single period. -/
def sgaVal9 : ℕ → Option ℚ := fun p => if p = 1 then some 40 else none

/-- Income table using the canonical SGA name. -/
def tA9 : Table :=
  ⟨[1], [kSGA1, kTotalRevenue],
   fun p c => if c = kSGA1 then sgaVal9 p else baseVal9 p c⟩

/-- The same income table with the SGA line item renamed to the second
alias. -/
def tB9 : Table :=
  ⟨[1], [kSGA2, kTotalRevenue],
   fun p c => if c = kSGA2 then sgaVal9 p else baseVal9 p c⟩

/-- pyRound is the identity on integers. -/
theorem pyRound_intCast (n : ℤ) : pyRound ((n : ℚ)) = n := by
  unfold pyRound
  norm_num

/-- The normalisation round(100 * s / 100) of an integer points total is
the points total itself. -/
theorem pyRound_hundred (s : ℤ) : pyRound (100 * (s : ℚ) / 100) = s := by
  rw [mul_div_cancel_left₀ _ (by norm_num : (100 : ℚ) ≠ 0), pyRound_intCast]

/-- pyRound at the literal 100. -/
theorem pyRound_100 : pyRound ((100 : ℚ)) = 100 := by
  rw [(by norm_num : (100 : ℚ) = ((100 : ℤ) : ℚ)), pyRound_intCast]

/-- Updating a key then reading it gives the new value. -/
theorem upd_same (m : MetricsRecord) (k : String) (v : Option ℚ) : upd m k v k = v := by
  simp [upd]

/-- Updating a key leaves every other key unchanged. -/
theorem upd_ne (m : MetricsRecord) (v : Option ℚ) {q k : String} (h : q ≠ k) :
    upd m k v q = m q := by
  simp [upd, h]

/-- The quality score entry is the achieved points total: the denominator
of quality.py line 169 is the constant 100. -/
theorem score_quality_eval (m : MetricsRecord) :
    score_quality m kQuality = some ((qualityS m : ℚ)) := by
  norm_num [score_quality, pyRound_intCast]

/-- The growth score entry is the achieved points total over the constant
denominator 100. -/
theorem growth_score_eval (m : MetricsRecord) :
    growth_score_val m = some ((growthS m : ℚ)) := by
  norm_num [growth_score_val, pyRound_intCast]

/-- The profitability score entry is the achieved points total over the
constant denominator 100. -/
theorem prof_score_eval (m : MetricsRecord) :
    prof_score_val m = some ((profS m : ℚ)) := by
  norm_num [prof_score_val, pyRound_intCast]

/-- Arithmetic shape of the balanced blend with its constant component
denominators. -/
theorem bal_arith (a b c : ℤ) :
    (35 : ℚ) * ((a : ℚ) / 35) + 35 * ((b : ℚ) / 35) + 30 * ((c : ℚ) / 30)
      = ((a + b + c : ℤ) : ℚ) := by
  push_cast
  field_simp

/-- The balanced score entry is the plain sum of the three component
numerators: each component achievable total is its constant full
sub-weight sum (35, 35, 30) whatever is missing, so the weights cancel. -/
theorem balanced_score_eval (m : MetricsRecord) :
    balanced_score_val m = some ((balS m : ℚ)) := by
  unfold balanced_score_val
  norm_num
  rw [bal_arith, pyRound_intCast, balS]

/-- Reading the growth key of the cyber scorer output. -/
theorem styles_growth (m : MetricsRecord) :
    score_cyber_styles m kGrowth = growth_score_val m := by
  have h : kGrowth = kGrowth := rfl
  simp [score_cyber_styles]

/-- Reading the profitability key of the cyber scorer output. -/
theorem styles_prof (m : MetricsRecord) :
    score_cyber_styles m kProf = prof_score_val m := by
  have h1 : kProf ≠ kGrowth := by decide
  simp [score_cyber_styles, h1]

/-- Reading the balanced key of the cyber scorer output. -/
theorem styles_bal (m : MetricsRecord) :
    score_cyber_styles m kBal = balanced_score_val m := by
  have h1 : kBal ≠ kGrowth := by decide
  have h2 : kBal ≠ kProf := by decide
  simp [score_cyber_styles, h1, h2]

/-- The ROIC ladder is monotone nondecreasing. -/
theorem roic_points_mono {x y : ℚ} (h : x ≤ y) : roic_points x ≤ roic_points y := by
  unfold roic_points
  split_ifs <;> linarith

/-- The margin-stability ladder is monotone nonincreasing. -/
theorem opstd_points_anti {x y : ℚ} (h : x ≤ y) : opstd_points y ≤ opstd_points x := by
  unfold opstd_points
  split_ifs <;> linarith

/-- The CAGR ladder is monotone nondecreasing. -/
theorem cagr_points_mono {x y : ℚ} (h : x ≤ y) : cagr_points x ≤ cagr_points y := by
  unfold cagr_points
  split_ifs <;> linarith

/-- The debt-to-equity ladder is monotone nonincreasing. -/
theorem dte_points_anti {x y : ℚ} (h : x ≤ y) : dte_points y ≤ dte_points x := by
  unfold dte_points
  split_ifs <;> linarith

/-- The growth-score Rule-of-40 ladder is monotone nondecreasing. -/
theorem r40_growth_points_mono {x y : ℚ} (h : x ≤ y) :
    r40_growth_points x ≤ r40_growth_points y := by
  unfold r40_growth_points
  split_ifs <;> linarith

/-- The growth-score ARR ladder is monotone nondecreasing. -/
theorem arr_growth_points_mono {x y : ℚ} (h : x ≤ y) :
    arr_growth_points x ≤ arr_growth_points y := by
  unfold arr_growth_points
  split_ifs <;> linarith

/-- The growth-score gross-margin ladder is monotone nondecreasing. -/
theorem gm_growth_points_mono {x y : ℚ} (h : x ≤ y) :
    gm_growth_points x ≤ gm_growth_points y := by
  unfold gm_growth_points
  split_ifs <;> linarith

/-- The profitability-score FCF ladder is monotone nondecreasing. -/
theorem fcf_prof_points_mono {x y : ℚ} (h : x ≤ y) :
    fcf_prof_points x ≤ fcf_prof_points y := by
  unfold fcf_prof_points
  split_ifs <;> linarith

/-- The profitability-score gross-margin ladder is monotone nondecreasing. -/
theorem gm_prof_points_mono {x y : ℚ} (h : x ≤ y) :
    gm_prof_points x ≤ gm_prof_points y := by
  unfold gm_prof_points
  split_ifs <;> linarith

/-- The profitability-score SGA ladder is monotone nonincreasing. -/
theorem sga_prof_points_anti {x y : ℚ} (h : x ≤ y) :
    sga_prof_points y ≤ sga_prof_points x := by
  unfold sga_prof_points
  split_ifs <;> linarith

/-- The balanced Rule-of-40 sub-ladder is monotone nondecreasing. -/
theorem r40_bal_points_mono {x y : ℚ} (h : x ≤ y) :
    r40_bal_points x ≤ r40_bal_points y := by
  unfold r40_bal_points
  split_ifs <;> linarith

/-- The balanced ARR sub-ladder is monotone nondecreasing. -/
theorem arr_bal_points_mono {x y : ℚ} (h : x ≤ y) :
    arr_bal_points x ≤ arr_bal_points y := by
  unfold arr_bal_points
  split_ifs <;> linarith

/-- The balanced FCF sub-ladder is monotone nondecreasing. -/
theorem fcf_bal_points_mono {x y : ℚ} (h : x ≤ y) :
    fcf_bal_points x ≤ fcf_bal_points y := by
  unfold fcf_bal_points
  split_ifs <;> linarith

/-- The balanced gross-margin sub-ladder is monotone nondecreasing. -/
theorem gm_bal_points_mono {x y : ℚ} (h : x ≤ y) :
    gm_bal_points x ≤ gm_bal_points y := by
  unfold gm_bal_points
  split_ifs <;> linarith

/-- The balanced SGA sub-ladder is monotone nonincreasing. -/
theorem sga_bal_points_anti {x y : ℚ} (h : x ≤ y) :
    sga_bal_points y ≤ sga_bal_points x := by
  unfold sga_bal_points
  split_ifs <;> linarith

/-- The balanced gross-margin-trend sub-ladder is monotone nondecreasing. -/
theorem gmtr_bal_points_mono {x y : ℚ} (h : x ≤ y) :
    gmtr_bal_points x ≤ gmtr_bal_points y := by
  unfold gmtr_bal_points
  split_ifs <;> linarith

/-- Quality points are monotone in the ROIC metric. -/
theorem qualityS_mono_roic : MonoAt qualityS kRoic := by
  intro m x y h
  have h1 : kStd ≠ kRoic := by decide
  have h2 : kRevC ≠ kRoic := by decide
  have h3 : kEpsC ≠ kRoic := by decide
  have h4 : kDte ≠ kRoic := by decide
  simp only [qualityS, upd_same, upd_ne _ _ h1, upd_ne _ _ h2, upd_ne _ _ h3,
    upd_ne _ _ h4, optPts]
  gcongr
  exact roic_points_mono h

/-- Quality points are antitone in the margin-stability metric. -/
theorem qualityS_anti_std : AntiAt qualityS kStd := by
  intro m x y h
  have h1 : kRoic ≠ kStd := by decide
  have h2 : kRevC ≠ kStd := by decide
  have h3 : kEpsC ≠ kStd := by decide
  have h4 : kDte ≠ kStd := by decide
  simp only [qualityS, upd_same, upd_ne _ _ h1, upd_ne _ _ h2, upd_ne _ _ h3,
    upd_ne _ _ h4, optPts]
  gcongr
  exact opstd_points_anti h

/-- Quality points are monotone in the revenue CAGR metric. -/
theorem qualityS_mono_revc : MonoAt qualityS kRevC := by
  intro m x y h
  have h1 : kRoic ≠ kRevC := by decide
  have h2 : kStd ≠ kRevC := by decide
  have h3 : kEpsC ≠ kRevC := by decide
  have h4 : kDte ≠ kRevC := by decide
  simp only [qualityS, upd_same, upd_ne _ _ h1, upd_ne _ _ h2, upd_ne _ _ h3,
    upd_ne _ _ h4, optPts]
  gcongr
  exact cagr_points_mono h

/-- Quality points are monotone in the EPS CAGR metric. -/
theorem qualityS_mono_epsc : MonoAt qualityS kEpsC := by
  intro m x y h
  have h1 : kRoic ≠ kEpsC := by decide
  have h2 : kStd ≠ kEpsC := by decide
  have h3 : kRevC ≠ kEpsC := by decide
  have h4 : kDte ≠ kEpsC := by decide
  simp only [qualityS, upd_same, upd_ne _ _ h1, upd_ne _ _ h2, upd_ne _ _ h3,
    upd_ne _ _ h4, optPts]
  gcongr
  exact cagr_points_mono h

/-- Quality points are antitone in the debt-to-equity metric. -/
theorem qualityS_anti_dte : AntiAt qualityS kDte := by
  intro m x y h
  have h1 : kRoic ≠ kDte := by decide
  have h2 : kStd ≠ kDte := by decide
  have h3 : kRevC ≠ kDte := by decide
  have h4 : kEpsC ≠ kDte := by decide
  simp only [qualityS, upd_same, upd_ne _ _ h1, upd_ne _ _ h2, upd_ne _ _ h3,
    upd_ne _ _ h4, optPts]
  gcongr
  exact dte_points_anti h

/-- Growth points are monotone in the Rule of 40 metric. -/
theorem growthS_mono_r40 : MonoAt growthS kR40 := by
  intro m x y h
  have h1 : kArr ≠ kR40 := by decide
  have h2 : kGm ≠ kR40 := by decide
  simp only [growthS, upd_same, upd_ne _ _ h1, upd_ne _ _ h2, optPts]
  gcongr
  exact r40_growth_points_mono h

/-- Growth points are monotone in the ARR metric. -/
theorem growthS_mono_arr : MonoAt growthS kArr := by
  intro m x y h
  have h1 : kR40 ≠ kArr := by decide
  have h2 : kGm ≠ kArr := by decide
  simp only [growthS, upd_same, upd_ne _ _ h1, upd_ne _ _ h2, optPts]
  gcongr
  exact arr_growth_points_mono h

/-- Growth points are monotone in the gross-margin metric. -/
theorem growthS_mono_gm : MonoAt growthS kGm := by
  intro m x y h
  have h1 : kR40 ≠ kGm := by decide
  have h2 : kArr ≠ kGm := by decide
  simp only [growthS, upd_same, upd_ne _ _ h1, upd_ne _ _ h2, optPts]
  gcongr
  exact gm_growth_points_mono h

/-- Profitability points are monotone in the FCF-margin metric. -/
theorem profS_mono_fcf : MonoAt profS kFcf := by
  intro m x y h
  have h1 : kGm ≠ kFcf := by decide
  have h2 : kSga ≠ kFcf := by decide
  have h3 : kRd ≠ kFcf := by decide
  simp only [profS, upd_same, upd_ne _ _ h1, upd_ne _ _ h2, upd_ne _ _ h3, optPts]
  gcongr
  exact fcf_prof_points_mono h

/-- Profitability points are monotone in the gross-margin metric. -/
theorem profS_mono_gm : MonoAt profS kGm := by
  intro m x y h
  have h1 : kFcf ≠ kGm := by decide
  have h2 : kSga ≠ kGm := by decide
  have h3 : kRd ≠ kGm := by decide
  simp only [profS, upd_same, upd_ne _ _ h1, upd_ne _ _ h2, upd_ne _ _ h3, optPts]
  gcongr
  exact gm_prof_points_mono h

/-- Profitability points are antitone in the SGA metric. -/
theorem profS_anti_sga : AntiAt profS kSga := by
  intro m x y h
  have h1 : kFcf ≠ kSga := by decide
  have h2 : kGm ≠ kSga := by decide
  have h3 : kRd ≠ kSga := by decide
  simp only [profS, upd_same, upd_ne _ _ h1, upd_ne _ _ h2, upd_ne _ _ h3, optPts]
  gcongr
  exact sga_prof_points_anti h

/-- Balanced points are monotone in the Rule of 40 metric. -/
theorem balS_mono_r40 : MonoAt balS kR40 := by
  intro m x y h
  have h1 : kArr ≠ kR40 := by decide
  have h2 : kFcf ≠ kR40 := by decide
  have h3 : kGm ≠ kR40 := by decide
  have h4 : kSga ≠ kR40 := by decide
  have h5 : kRd ≠ kR40 := by decide
  have h6 : kGmTr ≠ kR40 := by decide
  simp only [balS, gcS, pcS, ecS, upd_same, upd_ne _ _ h1, upd_ne _ _ h2,
    upd_ne _ _ h3, upd_ne _ _ h4, upd_ne _ _ h5, upd_ne _ _ h6, optPts]
  gcongr
  exact r40_bal_points_mono h

/-- Balanced points are monotone in the ARR metric. -/
theorem balS_mono_arr : MonoAt balS kArr := by
  intro m x y h
  have h1 : kR40 ≠ kArr := by decide
  have h2 : kFcf ≠ kArr := by decide
  have h3 : kGm ≠ kArr := by decide
  have h4 : kSga ≠ kArr := by decide
  have h5 : kRd ≠ kArr := by decide
  have h6 : kGmTr ≠ kArr := by decide
  simp only [balS, gcS, pcS, ecS, upd_same, upd_ne _ _ h1, upd_ne _ _ h2,
    upd_ne _ _ h3, upd_ne _ _ h4, upd_ne _ _ h5, upd_ne _ _ h6, optPts]
  gcongr
  exact arr_bal_points_mono h

/-- Balanced points are monotone in the FCF-margin metric. -/
theorem balS_mono_fcf : MonoAt balS kFcf := by
  intro m x y h
  have h1 : kR40 ≠ kFcf := by decide
  have h2 : kArr ≠ kFcf := by decide
  have h3 : kGm ≠ kFcf := by decide
  have h4 : kSga ≠ kFcf := by decide
  have h5 : kRd ≠ kFcf := by decide
  have h6 : kGmTr ≠ kFcf := by decide
  simp only [balS, gcS, pcS, ecS, upd_same, upd_ne _ _ h1, upd_ne _ _ h2,
    upd_ne _ _ h3, upd_ne _ _ h4, upd_ne _ _ h5, upd_ne _ _ h6, optPts]
  gcongr
  exact fcf_bal_points_mono h

/-- Balanced points are monotone in the gross-margin metric. -/
theorem balS_mono_gm : MonoAt balS kGm := by
  intro m x y h
  have h1 : kR40 ≠ kGm := by decide
  have h2 : kArr ≠ kGm := by decide
  have h3 : kFcf ≠ kGm := by decide
  have h4 : kSga ≠ kGm := by decide
  have h5 : kRd ≠ kGm := by decide
  have h6 : kGmTr ≠ kGm := by decide
  simp only [balS, gcS, pcS, ecS, upd_same, upd_ne _ _ h1, upd_ne _ _ h2,
    upd_ne _ _ h3, upd_ne _ _ h4, upd_ne _ _ h5, upd_ne _ _ h6, optPts]
  gcongr
  exact gm_bal_points_mono h

/-- Balanced points are antitone in the SGA metric. -/
theorem balS_anti_sga : AntiAt balS kSga := by
  intro m x y h
  have h1 : kR40 ≠ kSga := by decide
  have h2 : kArr ≠ kSga := by decide
  have h3 : kFcf ≠ kSga := by decide
  have h4 : kGm ≠ kSga := by decide
  have h5 : kRd ≠ kSga := by decide
  have h6 : kGmTr ≠ kSga := by decide
  simp only [balS, gcS, pcS, ecS, upd_same, upd_ne _ _ h1, upd_ne _ _ h2,
    upd_ne _ _ h3, upd_ne _ _ h4, upd_ne _ _ h5, upd_ne _ _ h6, optPts]
  gcongr
  exact sga_bal_points_anti h

/-- Balanced points are monotone in the gross-margin-trend metric. -/
theorem balS_mono_gmtr : MonoAt balS kGmTr := by
  intro m x y h
  have h1 : kR40 ≠ kGmTr := by decide
  have h2 : kArr ≠ kGmTr := by decide
  have h3 : kFcf ≠ kGmTr := by decide
  have h4 : kGm ≠ kGmTr := by decide
  have h5 : kSga ≠ kGmTr := by decide
  have h6 : kRd ≠ kGmTr := by decide
  simp only [balS, gcS, pcS, ecS, upd_same, upd_ne _ _ h1, upd_ne _ _ h2,
    upd_ne _ _ h3, upd_ne _ _ h4, upd_ne _ _ h5, upd_ne _ _ h6, optPts]
  gcongr
  exact gmtr_bal_points_mono h

/-- Profitability points at a sweet-spot RD value with everything else
missing. -/
theorem profS_rd_mid : profS (upd emptyM kRd (some (0.15 : ℚ))) = 15 := by
  simp [profS, upd, emptyM, kFcf, kGm, kSga, kRd, optPts]
  norm_num [rd_prof_points]

/-- Profitability points at an RD value above every band. -/
theorem profS_rd_hi : profS (upd emptyM kRd (some (0.35 : ℚ))) = 0 := by
  simp [profS, upd, emptyM, kFcf, kGm, kSga, kRd, optPts]
  norm_num [rd_prof_points]

/-- Profitability points at an RD value below every band. -/
theorem profS_rd_lo : profS (upd emptyM kRd (some (0.02 : ℚ))) = 0 := by
  simp [profS, upd, emptyM, kFcf, kGm, kSga, kRd, optPts]
  norm_num [rd_prof_points]

/-- Balanced points at a sweet-spot RD value with everything else
missing. -/
theorem balS_rd_mid : balS (upd emptyM kRd (some (0.15 : ℚ))) = 10 := by
  simp [balS, gcS, pcS, ecS, upd, emptyM, kR40, kArr, kFcf, kGm, kSga, kRd,
    kGmTr, optPts]
  norm_num [rd_bal_points]

/-- Balanced points at an RD value above every band. -/
theorem balS_rd_hi : balS (upd emptyM kRd (some (0.35 : ℚ))) = 0 := by
  simp [balS, gcS, pcS, ecS, upd, emptyM, kR40, kArr, kFcf, kGm, kSga, kRd,
    kGmTr, optPts]
  norm_num [rd_bal_points]

/-- Balanced points at an RD value below every band. -/
theorem balS_rd_lo : balS (upd emptyM kRd (some (0.02 : ℚ))) = 0 := by
  simp [balS, gcS, pcS, ecS, upd, emptyM, kR40, kArr, kFcf, kGm, kSga, kRd,
    kGmTr, optPts]
  norm_num [rd_bal_points]

/-- The profitability points are not monotone nondecreasing in RD. -/
theorem profS_not_mono_rd : ¬ MonoAt profS kRd := by
  intro hmono
  have h2 := hmono emptyM 0.15 0.35 (by norm_num)
  rw [profS_rd_mid, profS_rd_hi] at h2
  exact absurd h2 (by norm_num)

/-- The profitability points are not monotone nonincreasing in RD. -/
theorem profS_not_anti_rd : ¬ AntiAt profS kRd := by
  intro hanti
  have h2 := hanti emptyM 0.02 0.15 (by norm_num)
  rw [profS_rd_mid, profS_rd_lo] at h2
  exact absurd h2 (by norm_num)

/-- The balanced points are not monotone nondecreasing in RD. -/
theorem balS_not_mono_rd : ¬ MonoAt balS kRd := by
  intro hmono
  have h2 := hmono emptyM 0.15 0.35 (by norm_num)
  rw [balS_rd_mid, balS_rd_hi] at h2
  exact absurd h2 (by norm_num)

/-- The balanced points are not monotone nonincreasing in RD. -/
theorem balS_not_anti_rd : ¬ AntiAt balS kRd := by
  intro hanti
  have h2 := hanti emptyM 0.02 0.15 (by norm_num)
  rw [balS_rd_mid, balS_rd_lo] at h2
  exact absurd h2 (by norm_num)

/-- Balanced growth numerator of the three-metric record. -/
theorem gcS_mBal3 : gcS mBal3 = 15 := by
  simp [gcS, mBal3, upd, emptyM, kR40, kArr, kFcf, kGmTr, optPts]
  norm_num [arr_bal_points]

/-- Balanced profitability numerator of the three-metric record. -/
theorem pcS_mBal3 : pcS mBal3 = 20 := by
  simp [pcS, mBal3, upd, emptyM, kFcf, kGm, kArr, kGmTr, optPts]
  norm_num [fcf_bal_points]

/-- Balanced efficiency numerator of the three-metric record. -/
theorem ecS_mBal3 : ecS mBal3 = 10 := by
  simp [ecS, mBal3, upd, emptyM, kSga, kRd, kGmTr, kArr, kFcf, optPts]
  norm_num [gmtr_bal_points]

/-- Balanced points total of the three-metric record. -/
theorem balS_mBal3 : balS mBal3 = 45 := by
  rw [balS, gcS_mBal3, pcS_mBal3, ecS_mBal3]
  norm_num

/-- Lookups of the three-metric record. -/
theorem mBal3_lookups :
    mBal3 kR40 = none ∧ mBal3 kArr = some 0.30 ∧ mBal3 kFcf = some 0.25 ∧
    mBal3 kGm = none ∧ mBal3 kSga = none ∧ mBal3 kRd = none ∧
    mBal3 kGmTr = some 0.03 := by
  refine ⟨?_, ?_, ?_, ?_, ?_, ?_, ?_⟩ <;>
    simp [mBal3, upd, emptyM, kR40, kArr, kFcf, kGm, kSga, kRd, kGmTr]

/-- The spec-shrunk balanced score of the three-metric record is 100: each
component has one defined input, so each shrunk denominator equals its
numerator weight. -/
theorem shrink_mBal3 : balanced_specShrink mBal3 = some 100 := by
  obtain ⟨l1, l2, l3, l4, l5, l6, l7⟩ := mBal3_lookups
  unfold balanced_specShrink
  rw [gcS_mBal3, pcS_mBal3, ecS_mBal3]
  simp only [l1, l2, l3, l4, l5, l6, l7]
  norm_num [pyRound_100]

/-- Balanced points of the record holding only arr_growth 0.30. -/
theorem balS_mBalArr : balS mBalArr = 15 := by
  simp [balS, gcS, pcS, ecS, mBalArr, upd, emptyM, kR40, kArr, kFcf, kGm, kSga,
    kRd, kGmTr, optPts]
  norm_num [arr_bal_points]

/-- Claim C1, counterexample: on a record in which every balanced component
has exactly one defined input metric, the source scorer divides each
component numerator by the full constant sub-weight total and returns a
balanced score of 45, while the claimed per-component shrinking denominator
would return 100. -/
theorem claim_C1_counterexample :
    score_cyber_styles mBal3 kBal = some 45 ∧ balanced_specShrink mBal3 = some 100 ∧
    (45 : ℚ) ≠ 100 := by
  refine ⟨?_, shrink_mBal3, by norm_num⟩
  rw [styles_bal, balanced_score_eval, balS_mBal3]
  norm_num

/-- Claim C1 (amended): in the balanced score each component contributes
component_weight * achieved / achievable with the achievable total being
the constant full sub-weight sum (20+15, 20+15, 10+10+10) whatever inputs
are missing — the same denominator policy as the universal scorer; the
weights therefore cancel and the balanced score equals the plain sum of the
three achieved sub-point totals.  In particular a record with only
arr_growth 0.30 defined scores 15 (35 * 15/35), not 35. -/
theorem claim_C1 :
    (∀ m : MetricsRecord, score_cyber_styles m kBal = some ((balS m : ℚ))) ∧
    score_cyber_styles mBalArr kBal = some 15 := by
  constructor
  · intro m
    rw [styles_bal, balanced_score_eval]
  · rw [styles_bal, balanced_score_eval, balS_mBalArr]
    norm_num

/-- Quality points of the record holding only roic_5y_avg 0.25. -/
theorem qualityS_mRoicOnly : qualityS mRoicOnly = 30 := by
  simp [qualityS, mRoicOnly, upd, emptyM, kRoic, kStd, kRevC, kEpsC, kDte, optPts]
  norm_num [roic_points]

/-- Lookups of the single-roic record. -/
theorem mRoicOnly_lookups :
    mRoicOnly kRoic = some 0.25 ∧ mRoicOnly kStd = none ∧ mRoicOnly kRevC = none ∧
    mRoicOnly kEpsC = none ∧ mRoicOnly kDte = none := by
  refine ⟨?_, ?_, ?_, ?_, ?_⟩ <;>
    simp [mRoicOnly, upd, emptyM, kRoic, kStd, kRevC, kEpsC, kDte]

/-- The spec-shrunk quality score of the single-roic record is 100. -/
theorem shrink_mRoicOnly : score_quality_specShrink mRoicOnly = some 100 := by
  obtain ⟨l1, l2, l3, l4, l5⟩ := mRoicOnly_lookups
  unfold score_quality_specShrink
  rw [qualityS_mRoicOnly]
  simp only [l1, l2, l3, l4, l5]
  norm_num [pyRound_100]

/-- Claim C2, counterexample: a record whose only defined metric is a
best-tier ROIC receives quality_score 30 from the source scorer (achieved
30 over the never-shrinking denominator 100), while the claimed shrinking
denominator would award 100; missing data is in fact penalised exactly
like worst-tier data. -/
theorem claim_C2_counterexample :
    score_quality mRoicOnly kQuality = some 30 ∧
    score_quality_specShrink mRoicOnly = some 100 ∧ (30 : ℚ) ≠ 100 := by
  refine ⟨?_, shrink_mRoicOnly, by norm_num⟩
  rw [score_quality_eval, qualityS_mRoicOnly]
  norm_num

/-- Replacing a missing Roic metric by a worst-tier value -1 leaves the
quality achieved points unchanged. -/
theorem undef_worst_quality_roic :
    ∀ m : MetricsRecord, qualityS (upd m kRoic none) = qualityS (upd m kRoic (some (-1 : ℚ))) := by
  intro m
  have h1 : kStd ≠ kRoic := by decide
  have h2 : kRevC ≠ kRoic := by decide
  have h3 : kEpsC ≠ kRoic := by decide
  have h4 : kDte ≠ kRoic := by decide
  simp only [qualityS, upd_same, upd_ne _ _ h1, upd_ne _ _ h2, upd_ne _ _ h3, upd_ne _ _ h4, optPts]
  norm_num [roic_points]

/-- Replacing a missing Std metric by a worst-tier value 1 leaves the
quality achieved points unchanged. -/
theorem undef_worst_quality_std :
    ∀ m : MetricsRecord, qualityS (upd m kStd none) = qualityS (upd m kStd (some (1 : ℚ))) := by
  intro m
  have h1 : kRoic ≠ kStd := by decide
  have h2 : kRevC ≠ kStd := by decide
  have h3 : kEpsC ≠ kStd := by decide
  have h4 : kDte ≠ kStd := by decide
  simp only [qualityS, upd_same, upd_ne _ _ h1, upd_ne _ _ h2, upd_ne _ _ h3, upd_ne _ _ h4, optPts]
  norm_num [opstd_points]

/-- Replacing a missing RevC metric by a worst-tier value -1 leaves the
quality achieved points unchanged. -/
theorem undef_worst_quality_revc :
    ∀ m : MetricsRecord, qualityS (upd m kRevC none) = qualityS (upd m kRevC (some (-1 : ℚ))) := by
  intro m
  have h1 : kRoic ≠ kRevC := by decide
  have h2 : kStd ≠ kRevC := by decide
  have h3 : kEpsC ≠ kRevC := by decide
  have h4 : kDte ≠ kRevC := by decide
  simp only [qualityS, upd_same, upd_ne _ _ h1, upd_ne _ _ h2, upd_ne _ _ h3, upd_ne _ _ h4, optPts]
  norm_num [cagr_points]

/-- Replacing a missing EpsC metric by a worst-tier value -1 leaves the
quality achieved points unchanged. -/
theorem undef_worst_quality_epsc :
    ∀ m : MetricsRecord, qualityS (upd m kEpsC none) = qualityS (upd m kEpsC (some (-1 : ℚ))) := by
  intro m
  have h1 : kRoic ≠ kEpsC := by decide
  have h2 : kStd ≠ kEpsC := by decide
  have h3 : kRevC ≠ kEpsC := by decide
  have h4 : kDte ≠ kEpsC := by decide
  simp only [qualityS, upd_same, upd_ne _ _ h1, upd_ne _ _ h2, upd_ne _ _ h3, upd_ne _ _ h4, optPts]
  norm_num [cagr_points]

/-- Replacing a missing Dte metric by a worst-tier value 3 leaves the
quality achieved points unchanged. -/
theorem undef_worst_quality_dte :
    ∀ m : MetricsRecord, qualityS (upd m kDte none) = qualityS (upd m kDte (some (3 : ℚ))) := by
  intro m
  have h1 : kRoic ≠ kDte := by decide
  have h2 : kStd ≠ kDte := by decide
  have h3 : kRevC ≠ kDte := by decide
  have h4 : kEpsC ≠ kDte := by decide
  simp only [qualityS, upd_same, upd_ne _ _ h1, upd_ne _ _ h2, upd_ne _ _ h3, upd_ne _ _ h4, optPts]
  norm_num [dte_points]

/-- Replacing a missing R40 metric by a worst-tier value -1 leaves the
growth achieved points unchanged. -/
theorem undef_worst_growth_r40 :
    ∀ m : MetricsRecord, growthS (upd m kR40 none) = growthS (upd m kR40 (some (-1 : ℚ))) := by
  intro m
  have h1 : kArr ≠ kR40 := by decide
  have h2 : kGm ≠ kR40 := by decide
  simp only [growthS, upd_same, upd_ne _ _ h1, upd_ne _ _ h2, optPts]
  norm_num [r40_growth_points]

/-- Replacing a missing Arr metric by a worst-tier value -1 leaves the
growth achieved points unchanged. -/
theorem undef_worst_growth_arr :
    ∀ m : MetricsRecord, growthS (upd m kArr none) = growthS (upd m kArr (some (-1 : ℚ))) := by
  intro m
  have h1 : kR40 ≠ kArr := by decide
  have h2 : kGm ≠ kArr := by decide
  simp only [growthS, upd_same, upd_ne _ _ h1, upd_ne _ _ h2, optPts]
  norm_num [arr_growth_points]

/-- Replacing a missing Gm metric by a worst-tier value -1 leaves the
growth achieved points unchanged. -/
theorem undef_worst_growth_gm :
    ∀ m : MetricsRecord, growthS (upd m kGm none) = growthS (upd m kGm (some (-1 : ℚ))) := by
  intro m
  have h1 : kR40 ≠ kGm := by decide
  have h2 : kArr ≠ kGm := by decide
  simp only [growthS, upd_same, upd_ne _ _ h1, upd_ne _ _ h2, optPts]
  norm_num [gm_growth_points]

/-- Replacing a missing Fcf metric by a worst-tier value -1 leaves the
prof achieved points unchanged. -/
theorem undef_worst_prof_fcf :
    ∀ m : MetricsRecord, profS (upd m kFcf none) = profS (upd m kFcf (some (-1 : ℚ))) := by
  intro m
  have h1 : kGm ≠ kFcf := by decide
  have h2 : kSga ≠ kFcf := by decide
  have h3 : kRd ≠ kFcf := by decide
  simp only [profS, upd_same, upd_ne _ _ h1, upd_ne _ _ h2, upd_ne _ _ h3, optPts]
  norm_num [fcf_prof_points]

/-- Replacing a missing Gm metric by a worst-tier value -1 leaves the
prof achieved points unchanged. -/
theorem undef_worst_prof_gm :
    ∀ m : MetricsRecord, profS (upd m kGm none) = profS (upd m kGm (some (-1 : ℚ))) := by
  intro m
  have h1 : kFcf ≠ kGm := by decide
  have h2 : kSga ≠ kGm := by decide
  have h3 : kRd ≠ kGm := by decide
  simp only [profS, upd_same, upd_ne _ _ h1, upd_ne _ _ h2, upd_ne _ _ h3, optPts]
  norm_num [gm_prof_points]

/-- Replacing a missing Sga metric by a worst-tier value 1 leaves the
prof achieved points unchanged. -/
theorem undef_worst_prof_sga :
    ∀ m : MetricsRecord, profS (upd m kSga none) = profS (upd m kSga (some (1 : ℚ))) := by
  intro m
  have h1 : kFcf ≠ kSga := by decide
  have h2 : kGm ≠ kSga := by decide
  have h3 : kRd ≠ kSga := by decide
  simp only [profS, upd_same, upd_ne _ _ h1, upd_ne _ _ h2, upd_ne _ _ h3, optPts]
  norm_num [sga_prof_points]

/-- Replacing a missing Rd metric by a worst-tier value 1 leaves the
prof achieved points unchanged. -/
theorem undef_worst_prof_rd :
    ∀ m : MetricsRecord, profS (upd m kRd none) = profS (upd m kRd (some (1 : ℚ))) := by
  intro m
  have h1 : kFcf ≠ kRd := by decide
  have h2 : kGm ≠ kRd := by decide
  have h3 : kSga ≠ kRd := by decide
  simp only [profS, upd_same, upd_ne _ _ h1, upd_ne _ _ h2, upd_ne _ _ h3, optPts]
  norm_num [rd_prof_points]

/-- Replacing a missing R40 metric by a worst-tier value -1 leaves the
bal achieved points unchanged. -/
theorem undef_worst_bal_r40 :
    ∀ m : MetricsRecord, balS (upd m kR40 none) = balS (upd m kR40 (some (-1 : ℚ))) := by
  intro m
  have h1 : kArr ≠ kR40 := by decide
  have h2 : kFcf ≠ kR40 := by decide
  have h3 : kGm ≠ kR40 := by decide
  have h4 : kSga ≠ kR40 := by decide
  have h5 : kRd ≠ kR40 := by decide
  have h6 : kGmTr ≠ kR40 := by decide
  simp only [balS, gcS, pcS, ecS, upd_same, upd_ne _ _ h1, upd_ne _ _ h2, upd_ne _ _ h3, upd_ne _ _ h4, upd_ne _ _ h5, upd_ne _ _ h6, optPts]
  norm_num [r40_bal_points]

/-- Replacing a missing Arr metric by a worst-tier value -1 leaves the
bal achieved points unchanged. -/
theorem undef_worst_bal_arr :
    ∀ m : MetricsRecord, balS (upd m kArr none) = balS (upd m kArr (some (-1 : ℚ))) := by
  intro m
  have h1 : kR40 ≠ kArr := by decide
  have h2 : kFcf ≠ kArr := by decide
  have h3 : kGm ≠ kArr := by decide
  have h4 : kSga ≠ kArr := by decide
  have h5 : kRd ≠ kArr := by decide
  have h6 : kGmTr ≠ kArr := by decide
  simp only [balS, gcS, pcS, ecS, upd_same, upd_ne _ _ h1, upd_ne _ _ h2, upd_ne _ _ h3, upd_ne _ _ h4, upd_ne _ _ h5, upd_ne _ _ h6, optPts]
  norm_num [arr_bal_points]

/-- Replacing a missing Fcf metric by a worst-tier value -1 leaves the
bal achieved points unchanged. -/
theorem undef_worst_bal_fcf :
    ∀ m : MetricsRecord, balS (upd m kFcf none) = balS (upd m kFcf (some (-1 : ℚ))) := by
  intro m
  have h1 : kR40 ≠ kFcf := by decide
  have h2 : kArr ≠ kFcf := by decide
  have h3 : kGm ≠ kFcf := by decide
  have h4 : kSga ≠ kFcf := by decide
  have h5 : kRd ≠ kFcf := by decide
  have h6 : kGmTr ≠ kFcf := by decide
  simp only [balS, gcS, pcS, ecS, upd_same, upd_ne _ _ h1, upd_ne _ _ h2, upd_ne _ _ h3, upd_ne _ _ h4, upd_ne _ _ h5, upd_ne _ _ h6, optPts]
  norm_num [fcf_bal_points]

/-- Replacing a missing Gm metric by a worst-tier value -1 leaves the
bal achieved points unchanged. -/
theorem undef_worst_bal_gm :
    ∀ m : MetricsRecord, balS (upd m kGm none) = balS (upd m kGm (some (-1 : ℚ))) := by
  intro m
  have h1 : kR40 ≠ kGm := by decide
  have h2 : kArr ≠ kGm := by decide
  have h3 : kFcf ≠ kGm := by decide
  have h4 : kSga ≠ kGm := by decide
  have h5 : kRd ≠ kGm := by decide
  have h6 : kGmTr ≠ kGm := by decide
  simp only [balS, gcS, pcS, ecS, upd_same, upd_ne _ _ h1, upd_ne _ _ h2, upd_ne _ _ h3, upd_ne _ _ h4, upd_ne _ _ h5, upd_ne _ _ h6, optPts]
  norm_num [gm_bal_points]

/-- Replacing a missing Sga metric by a worst-tier value 1 leaves the
bal achieved points unchanged. -/
theorem undef_worst_bal_sga :
    ∀ m : MetricsRecord, balS (upd m kSga none) = balS (upd m kSga (some (1 : ℚ))) := by
  intro m
  have h1 : kR40 ≠ kSga := by decide
  have h2 : kArr ≠ kSga := by decide
  have h3 : kFcf ≠ kSga := by decide
  have h4 : kGm ≠ kSga := by decide
  have h5 : kRd ≠ kSga := by decide
  have h6 : kGmTr ≠ kSga := by decide
  simp only [balS, gcS, pcS, ecS, upd_same, upd_ne _ _ h1, upd_ne _ _ h2, upd_ne _ _ h3, upd_ne _ _ h4, upd_ne _ _ h5, upd_ne _ _ h6, optPts]
  norm_num [sga_bal_points]

/-- Replacing a missing Rd metric by a worst-tier value 1 leaves the
bal achieved points unchanged. -/
theorem undef_worst_bal_rd :
    ∀ m : MetricsRecord, balS (upd m kRd none) = balS (upd m kRd (some (1 : ℚ))) := by
  intro m
  have h1 : kR40 ≠ kRd := by decide
  have h2 : kArr ≠ kRd := by decide
  have h3 : kFcf ≠ kRd := by decide
  have h4 : kGm ≠ kRd := by decide
  have h5 : kSga ≠ kRd := by decide
  have h6 : kGmTr ≠ kRd := by decide
  simp only [balS, gcS, pcS, ecS, upd_same, upd_ne _ _ h1, upd_ne _ _ h2, upd_ne _ _ h3, upd_ne _ _ h4, upd_ne _ _ h5, upd_ne _ _ h6, optPts]
  norm_num [rd_bal_points]

/-- Replacing a missing GmTr metric by a worst-tier value -1 leaves the
bal achieved points unchanged. -/
theorem undef_worst_bal_gmtr :
    ∀ m : MetricsRecord, balS (upd m kGmTr none) = balS (upd m kGmTr (some (-1 : ℚ))) := by
  intro m
  have h1 : kR40 ≠ kGmTr := by decide
  have h2 : kArr ≠ kGmTr := by decide
  have h3 : kFcf ≠ kGmTr := by decide
  have h4 : kGm ≠ kGmTr := by decide
  have h5 : kSga ≠ kGmTr := by decide
  have h6 : kRd ≠ kGmTr := by decide
  simp only [balS, gcS, pcS, ecS, upd_same, upd_ne _ _ h1, upd_ne _ _ h2, upd_ne _ _ h3, upd_ne _ _ h4, upd_ne _ _ h5, upd_ne _ _ h6, optPts]
  norm_num [gmtr_bal_points]

/-- Claim C2 (amended): in every scorer an undefined metric contributes
zero achieved points while the achievable denominator stays at its full
constant total of 100 (it never shrinks), so each score equals its plain
achieved-points total and a record with an undefined metric receives
exactly the score it would receive with that metric set to a worst-tier
value: missing data is penalised like worst-tier data, not excluded.
(A record with undefined entries does score identically to a record
lacking those keys, since dict.get treats both as missing.) -/
theorem claim_C2 :
    (∀ m : MetricsRecord, score_quality m kQuality = some ((qualityS m : ℚ))) ∧
    (∀ m : MetricsRecord, score_cyber_styles m kGrowth = some ((growthS m : ℚ))) ∧
    (∀ m : MetricsRecord, score_cyber_styles m kProf = some ((profS m : ℚ))) ∧
    (∀ m : MetricsRecord, score_cyber_styles m kBal = some ((balS m : ℚ))) ∧
    (∀ m : MetricsRecord, qualityS (upd m kRoic none) = qualityS (upd m kRoic (some (-1)))) ∧
    (∀ m : MetricsRecord, qualityS (upd m kStd none) = qualityS (upd m kStd (some 1))) ∧
    (∀ m : MetricsRecord, qualityS (upd m kRevC none) = qualityS (upd m kRevC (some (-1)))) ∧
    (∀ m : MetricsRecord, qualityS (upd m kEpsC none) = qualityS (upd m kEpsC (some (-1)))) ∧
    (∀ m : MetricsRecord, qualityS (upd m kDte none) = qualityS (upd m kDte (some 3))) ∧
    (∀ m : MetricsRecord, growthS (upd m kR40 none) = growthS (upd m kR40 (some (-1)))) ∧
    (∀ m : MetricsRecord, growthS (upd m kArr none) = growthS (upd m kArr (some (-1)))) ∧
    (∀ m : MetricsRecord, growthS (upd m kGm none) = growthS (upd m kGm (some (-1)))) ∧
    (∀ m : MetricsRecord, profS (upd m kFcf none) = profS (upd m kFcf (some (-1)))) ∧
    (∀ m : MetricsRecord, profS (upd m kGm none) = profS (upd m kGm (some (-1)))) ∧
    (∀ m : MetricsRecord, profS (upd m kSga none) = profS (upd m kSga (some 1))) ∧
    (∀ m : MetricsRecord, profS (upd m kRd none) = profS (upd m kRd (some 1))) ∧
    (∀ m : MetricsRecord, balS (upd m kR40 none) = balS (upd m kR40 (some (-1)))) ∧
    (∀ m : MetricsRecord, balS (upd m kArr none) = balS (upd m kArr (some (-1)))) ∧
    (∀ m : MetricsRecord, balS (upd m kFcf none) = balS (upd m kFcf (some (-1)))) ∧
    (∀ m : MetricsRecord, balS (upd m kGm none) = balS (upd m kGm (some (-1)))) ∧
    (∀ m : MetricsRecord, balS (upd m kSga none) = balS (upd m kSga (some 1))) ∧
    (∀ m : MetricsRecord, balS (upd m kRd none) = balS (upd m kRd (some 1))) ∧
    (∀ m : MetricsRecord, balS (upd m kGmTr none) = balS (upd m kGmTr (some (-1)))) := by
  refine ⟨score_quality_eval, ?_, ?_, ?_,
    undef_worst_quality_roic, undef_worst_quality_std, undef_worst_quality_revc,
    undef_worst_quality_epsc, undef_worst_quality_dte,
    undef_worst_growth_r40, undef_worst_growth_arr, undef_worst_growth_gm,
    undef_worst_prof_fcf, undef_worst_prof_gm, undef_worst_prof_sga,
    undef_worst_prof_rd,
    undef_worst_bal_r40, undef_worst_bal_arr, undef_worst_bal_fcf,
    undef_worst_bal_gm, undef_worst_bal_sga, undef_worst_bal_rd,
    undef_worst_bal_gmtr⟩
  · intro m
    rw [styles_growth, growth_score_eval]
  · intro m
    rw [styles_prof, prof_score_eval]
  · intro m
    rw [styles_bal, balanced_score_eval]

/-- Quality points of the record holding only op_margin_std_5y 0.01. -/
theorem qualityS_mStdLo : qualityS mStdLo = 20 := by
  simp [qualityS, mStdLo, upd, emptyM, kRoic, kStd, kRevC, kEpsC, kDte, optPts]
  norm_num [opstd_points]

/-- Quality points of the record holding only op_margin_std_5y 0.06. -/
theorem qualityS_mStdHi : qualityS mStdHi = 8 := by
  simp [qualityS, mStdLo, mStdHi, upd, emptyM, kRoic, kStd, kRevC, kEpsC, kDte, optPts]
  norm_num [opstd_points]

/-- Claim C3, counterexample: raising the contributing metric
op_margin_std_5y from 0.01 to 0.06 (all other metrics fixed) lowers
quality_score from 20 to 8, because that ladder scores lower values
higher; so increasing a contributing metric can decrease its dependent
score. -/
theorem claim_C3_counterexample :
    (0.01 : ℚ) < 0.06 ∧ score_quality mStdLo kQuality = some 20 ∧
    score_quality mStdHi kQuality = some 8 ∧ ¬ ((20 : ℚ) ≤ 8) := by
  refine ⟨by norm_num, ?_, ?_, by norm_num⟩
  · rw [score_quality_eval, qualityS_mStdLo]
    norm_num
  · rw [score_quality_eval, qualityS_mStdHi]
    norm_num

/-- Claim C3 (amended): every score equals its achieved-points total
(constant denominator), and each achieved-points total is monotone
nondecreasing in every higher-is-better contributing metric (roic_5y_avg,
rev_cagr_5y, eps_cagr_5y, rule_of_40, arr_growth, gross_margin_avg,
fcf_margin, gross_margin_trend) and monotone nonincreasing in every
lower-is-better contributing metric (op_margin_std_5y, debt_to_equity,
sga_eff), while rd_eff is scored on a sweet-spot band and is monotone in
neither direction for the two scores it feeds. -/
theorem claim_C3 :
    (∀ m : MetricsRecord, score_quality m kQuality = some ((qualityS m : ℚ))) ∧
    (∀ m : MetricsRecord, score_cyber_styles m kGrowth = some ((growthS m : ℚ))) ∧
    (∀ m : MetricsRecord, score_cyber_styles m kProf = some ((profS m : ℚ))) ∧
    (∀ m : MetricsRecord, score_cyber_styles m kBal = some ((balS m : ℚ))) ∧
    MonoAt qualityS kRoic ∧ AntiAt qualityS kStd ∧ MonoAt qualityS kRevC ∧
    MonoAt qualityS kEpsC ∧ AntiAt qualityS kDte ∧
    MonoAt growthS kR40 ∧ MonoAt growthS kArr ∧ MonoAt growthS kGm ∧
    MonoAt profS kFcf ∧ MonoAt profS kGm ∧ AntiAt profS kSga ∧
    (¬ MonoAt profS kRd) ∧ (¬ AntiAt profS kRd) ∧
    MonoAt balS kR40 ∧ MonoAt balS kArr ∧ MonoAt balS kFcf ∧ MonoAt balS kGm ∧
    AntiAt balS kSga ∧ MonoAt balS kGmTr ∧
    (¬ MonoAt balS kRd) ∧ (¬ AntiAt balS kRd) := by
  refine ⟨score_quality_eval, ?_, ?_, ?_,
    qualityS_mono_roic, qualityS_anti_std, qualityS_mono_revc, qualityS_mono_epsc,
    qualityS_anti_dte,
    growthS_mono_r40, growthS_mono_arr, growthS_mono_gm,
    profS_mono_fcf, profS_mono_gm, profS_anti_sga, profS_not_mono_rd,
    profS_not_anti_rd,
    balS_mono_r40, balS_mono_arr, balS_mono_fcf, balS_mono_gm, balS_anti_sga,
    balS_mono_gmtr, balS_not_mono_rd, balS_not_anti_rd⟩
  · intro m
    rw [styles_growth, growth_score_eval]
  · intro m
    rw [styles_prof, prof_score_eval]
  · intro m
    rw [styles_bal, balanced_score_eval]

/-- Claim C3, witness: the ROIC monotonicity conjunct applied at the
concrete pair 0.1 ≤ 0.2 on the empty record. -/
theorem claim_C3_witness :
    (0.1 : ℚ) ≤ 0.2 ∧
    qualityS (upd emptyM kRoic (some 0.1)) ≤ qualityS (upd emptyM kRoic (some 0.2)) :=
  ⟨by norm_num, claim_C3.2.2.2.2.1 emptyM 0.1 0.2 (by norm_num)⟩

/-- Claim C4 (confirmed): the safe CAGR returns missing (not an error)
whenever periods, start or end is nonpositive, and otherwise the real
power (end/start) to the 1/periods, minus 1; in particular
cagr(100, 200, 5) = 2 to the 1/5 minus 1, while cagr(100, -50, 5),
cagr(-10, 200, 5) and cagr(100, 200, 0) are all missing. -/
theorem claim_C4 :
    (∀ (s e : ℝ) (y : ℤ), y ≤ 0 → _safe_cagr s e y = none) ∧
    (∀ (s e : ℝ) (y : ℤ), s ≤ 0 → _safe_cagr s e y = none) ∧
    (∀ (s e : ℝ) (y : ℤ), e ≤ 0 → _safe_cagr s e y = none) ∧
    (∀ (s e : ℝ) (y : ℤ), 0 < y → 0 < s → 0 < e →
      _safe_cagr s e y = some ((e / s) ^ ((1 : ℝ) / (y : ℝ)) - 1)) ∧
    _safe_cagr 100 200 5 = some ((2 : ℝ) ^ ((1 : ℝ) / 5) - 1) ∧
    _safe_cagr 100 (-50) 5 = none ∧
    _safe_cagr (-10) 200 5 = none ∧
    _safe_cagr 100 200 0 = none := by
  have hpos : ∀ (s e : ℝ) (y : ℤ), 0 < y → 0 < s → 0 < e →
      _safe_cagr s e y = some ((e / s) ^ ((1 : ℝ) / (y : ℝ)) - 1) := by
    intro s e y hy hs he
    unfold _safe_cagr
    rw [if_neg (by omega), if_neg (by push_neg; exact ⟨hs, he⟩)]
  have hstart : ∀ (s e : ℝ) (y : ℤ), s ≤ 0 → _safe_cagr s e y = none := by
    intro s e y hs
    unfold _safe_cagr
    split_ifs with h1 h2
    · rfl
    · rfl
    · exact absurd (Or.inl hs) h2
  have hend : ∀ (s e : ℝ) (y : ℤ), e ≤ 0 → _safe_cagr s e y = none := by
    intro s e y he
    unfold _safe_cagr
    split_ifs with h1 h2
    · rfl
    · rfl
    · exact absurd (Or.inr he) h2
  refine ⟨?_, hstart, hend, hpos, ?_, ?_, ?_, ?_⟩
  · intro s e y hy
    unfold _safe_cagr
    rw [if_pos hy]
  · rw [hpos 100 200 5 (by norm_num) (by norm_num) (by norm_num)]
    norm_num
  · exact hend 100 (-50) 5 (by norm_num)
  · exact hstart (-10) 200 5 (by norm_num)
  · unfold _safe_cagr
    rw [if_pos le_rfl]

/-- Claim C4, witness: the positive branch of the contract applied at
start 100, end 200, periods 5. -/
theorem claim_C4_witness :
    (0 : ℤ) < 5 ∧ (0 : ℝ) < 100 ∧ (0 : ℝ) < 200 ∧
    _safe_cagr 100 200 5 = some (((200 : ℝ) / 100) ^ ((1 : ℝ) / ((5 : ℤ) : ℝ)) - 1) :=
  ⟨by norm_num, by norm_num, by norm_num,
   claim_C4.2.2.2.1 100 200 5 (by norm_num) (by norm_num) (by norm_num)⟩

/-- The code-level FCF margin on the counterexample snapshot: latest
operating cash flow (period 2), latest capital expenditure (period 1) and
latest revenue (period 2) are combined across periods: (20 - 4) / 200. -/
theorem fcf_code_C5 : fcf_margin_of incC5 cfC5 = some (2/25) := by
  simp [fcf_margin_of, incC5, cfC5, colVals, tailN, kOCF, kCapex, kTotalRevenue]
  norm_num

/-- The spec-level FCF margin on the counterexample snapshot: the single
latest period with all three present is period 1: (10 - 4) / 100. -/
theorem fcf_spec_C5 : fcf_margin_specModel incC5 cfC5 = some (3/50) := by
  simp [fcf_margin_specModel, incC5, cfC5, kOCF, kCapex, kTotalRevenue]
  norm_num

/-- Claim C5, counterexample: with capital expenditure missing at the
latest period, the source combines values taken at different periods
(OCF at period 2, capex at period 1, revenue at period 2) and returns
2/25, while the claimed single-joint-latest-period evaluation gives
3/50. -/
theorem claim_C5_counterexample :
    fcf_margin_of incC5 cfC5 = some (2/25) ∧
    fcf_margin_specModel incC5 cfC5 = some (3/50) ∧ ((2:ℚ)/25) ≠ 3/50 := by
  exact ⟨fcf_code_C5, fcf_spec_C5, by norm_num⟩

/-- tail(1) of a series is its last element, when one exists. -/
theorem tailN_one_eq (l : List ℚ) :
    tailN 1 l = ((l.getLast?).map (fun a => [a])).getD [] := by
  induction l using List.reverseRecOn with
  | nil => rfl
  | append_singleton xs a ih =>
    simp [tailN, List.getLast?_concat]

/-- Claim C5 (amended): fcf_margin is (last non-missing OCF + last
non-missing capex) / last non-missing revenue, each latest value taken
independently inside its own dropna-ed series (so possibly at different
periods, with revenue read from the income table); it is missing exactly
when a column is absent, one of the three series is entirely missing, or
the latest revenue is zero. -/
theorem claim_C5 :
    ∀ income cashflow : Table,
      fcf_margin_of income cashflow =
        if kOCF ∈ cashflow.cols ∧ kCapex ∈ cashflow.cols ∧ kTotalRevenue ∈ income.cols then
          match (colVals cashflow kOCF).getLast?, (colVals cashflow kCapex).getLast?,
                (colVals income kTotalRevenue).getLast? with
          | some o, some c, some r => if r ≠ 0 then some ((o + c) / r) else none
          | _, _, _ => none
        else none := by
  intro income cashflow
  unfold fcf_margin_of
  split_ifs with h
  · rw [tailN_one_eq, tailN_one_eq, tailN_one_eq]
    rcases (colVals cashflow kOCF).getLast? with _ | o <;>
      rcases (colVals cashflow kCapex).getLast? with _ | c <;>
        rcases (colVals income kTotalRevenue).getLast? with _ | r <;> simp
  · rfl

/-- The code-level ROIC proxy on the counterexample snapshot: the window is
the last five joint index keys 2..6; the missing ratio at period 6 is
skipped by the mean, which averages the four defined ratios to 1/10. -/
theorem roic_code_C6 : roic_5y_avg_of incC6 balC6 = some (1/10) := by
  simp [roic_5y_avg_of, commonIdx, incC6, balC6, kNetIncome, kEquity, tailN,
    meanSkip]
  norm_num

/-- The spec-level ROIC proxy on the counterexample snapshot: the last five
periods at which both values exist are 1..5, and their mean is 9/50. -/
theorem roic_spec_C6 : roic_5y_avg_specModel incC6 balC6 = some (9/50) := by
  simp [roic_5y_avg_specModel, incC6, balC6, kNetIncome, kEquity, tailN]
  norm_num

/-- Claim C6, counterexample: with net income missing at the newest joint
period, the source window (last five joint index keys, taken before any
missing-value check) differs from the claimed window (last five periods at
which both values exist): the code averages four ratios over periods 2..5
giving 1/10, the claim demands the mean 9/50 over periods 1..5. -/
theorem claim_C6_counterexample :
    roic_5y_avg_of incC6 balC6 = some (1/10) ∧
    roic_5y_avg_specModel incC6 balC6 = some (9/50) ∧ ((1:ℚ)/10) ≠ 9/50 := by
  exact ⟨roic_code_C6, roic_spec_C6, by norm_num⟩

/-- A map whose entries are all defined survives filterMap untouched. -/
theorem filterMap_id_of_all_some (W : List ℕ) (f : ℕ → Option ℚ) (g : ℕ → ℚ)
    (h : ∀ a ∈ W, f a = some (g a)) : (W.map f).filterMap id = W.map g := by
  induction W with
  | nil => rfl
  | cons a t ih =>
    simp only [List.map_cons, List.filterMap_cons]
    rw [h a (by simp)]
    exact congrArg _ (ih (fun b hb => h b (by simp [hb])))

/-- tailN commutes with map. -/
theorem tailN_map (f : ℕ → Option ℚ) (n : ℕ) (l : List ℕ) :
    tailN n (l.map f) = (tailN n l).map f := by
  simp [tailN]

/-- Claim C6 (amended): the window of roic_5y_avg is the last at-most-five
period keys present in BOTH row indexes (a join on keys made before any
missing-value check); inside the window the pandas mean skips undefined
ratios (missing net income, missing equity or zero equity), so fewer
ratio values than joint periods may enter the mean.  Whenever every joint
period carries a net income value and a nonzero equity value, this
coincides with the claimed description (the spec-modelled scorer). -/
theorem claim_C6 :
    ∀ income balance : Table,
      (∀ p ∈ commonIdx income balance, (income.val p kNetIncome).isSome) →
      (∀ p ∈ commonIdx income balance,
        ∃ e : ℚ, balance.val p kEquity = some e ∧ e ≠ 0) →
      roic_5y_avg_of income balance = roic_5y_avg_specModel income balance := by
  intro income balance hni heq
  unfold roic_5y_avg_of roic_5y_avg_specModel
  split_ifs with hcols
  · have hfilter : income.rows.filter (fun p =>
        decide (p ∈ balance.rows) && (income.val p kNetIncome).isSome &&
        (balance.val p kEquity).isSome) = commonIdx income balance := by
      unfold commonIdx
      apply List.filter_congr
      intro p hp
      by_cases hb : p ∈ balance.rows
      · have hpc : p ∈ commonIdx income balance := by
          unfold commonIdx
          rw [List.mem_filter]
          exact ⟨hp, by simpa⟩
        obtain ⟨e, he, hne⟩ := heq p hpc
        have h1 := hni p hpc
        simp [hb, h1, he]
      · simp [hb]
    rw [hfilter]
    dsimp only
    rw [tailN_map]
    have hsub : ∀ p ∈ tailN 5 (commonIdx income balance), p ∈ commonIdx income balance := by
      intro p hp
      exact List.drop_subset _ _ hp
    have hall : ∀ p ∈ tailN 5 (commonIdx income balance),
        (match income.val p kNetIncome,
               (match balance.val p kEquity with
                | some e => if e = 0 then none else some e
                | none => none) with
         | some ni, some e => some (ni / e)
         | _, _ => none)
        = some ((income.val p kNetIncome).getD 0 / (balance.val p kEquity).getD 0) := by
      intro p hp
      obtain ⟨e, he, hne⟩ := heq p (hsub p hp)
      have h1 := hni p (hsub p hp)
      obtain ⟨ni, hni2⟩ := Option.isSome_iff_exists.mp h1
      rw [hni2, he]
      simp [hne]
    unfold meanSkip
    rw [filterMap_id_of_all_some _ _ _ hall]
    simp [List.length_map]
  · rfl

/-- Claim C6, witness: on a snapshot in which every joint period has both
values defined with nonzero equity, the two windows coincide. -/
theorem claim_C6_witness :
    (∀ p ∈ commonIdx incC6w balC6w, (incC6w.val p kNetIncome).isSome) ∧
    (∀ p ∈ commonIdx incC6w balC6w,
      ∃ e : ℚ, balC6w.val p kEquity = some e ∧ e ≠ 0) ∧
    roic_5y_avg_of incC6w balC6w = roic_5y_avg_specModel incC6w balC6w := by
  have h1 : ∀ p ∈ commonIdx incC6w balC6w, (incC6w.val p kNetIncome).isSome := by
    intro p hp
    simp [incC6w]
  have h2 : ∀ p ∈ commonIdx incC6w balC6w,
      ∃ e : ℚ, balC6w.val p kEquity = some e ∧ e ≠ 0 := by
    intro p hp
    exact ⟨100, by simp [balC6w], by norm_num⟩
  exact ⟨h1, h2, claim_C6 incC6w balC6w h1 h2⟩

/-- Claim C7, counterexample: a balance statement that declares the
Total Liab and Total Stockholder Equity columns but holds no rows makes
compute_quality_metrics raise the unnamed IndexError of balance.iloc[-1]
even though both required income concepts are present, so not every
other missing input degrades to an undefined metric without raising. -/
theorem claim_C7_counterexample :
    compute_quality_metrics symACME incC7 balC7 = Except.error QError.indexErr ∧
    kTotalRevenue ∈ incC7.cols ∧ kOperatingIncome ∈ incC7.cols := by
  refine ⟨rfl, by decide, by decide⟩

/-- Claim C7 (amended): compute_quality_metrics raises the error naming a
concept and the symbol exactly when Total Revenue or Operating Income is
absent from the income columns; it raises the unnamed indexing error
exactly when both concepts are present, the balance sheet declares both
Total Liab and Total Stockholder Equity, and the balance sheet has no
rows; in every other case it completes, with all other missing inputs
degrading to undefined metric values. -/
theorem claim_C7 :
    (∀ (symbol : String) (income balance : Table),
      (∃ c, compute_quality_metrics symbol income balance =
        Except.error (QError.missingColumn c symbol)) ↔
      (kTotalRevenue ∉ income.cols ∨ kOperatingIncome ∉ income.cols)) ∧
    (∀ (symbol : String) (income balance : Table),
      compute_quality_metrics symbol income balance = Except.error QError.indexErr ↔
      (kTotalRevenue ∈ income.cols ∧ kOperatingIncome ∈ income.cols ∧
       kTotalLiab ∈ balance.cols ∧ kEquity ∈ balance.cols ∧ balance.rows = [])) ∧
    (∀ (symbol : String) (income balance : Table),
      (∃ v, compute_quality_metrics symbol income balance = Except.ok v) ↔
      (kTotalRevenue ∈ income.cols ∧ kOperatingIncome ∈ income.cols ∧
       ¬ (kTotalLiab ∈ balance.cols ∧ kEquity ∈ balance.cols ∧
          balance.rows = []))) := by
  refine ⟨?_, ?_, ?_⟩ <;> intro symbol income balance <;>
    by_cases h1 : kTotalRevenue ∈ income.cols <;>
    by_cases h2 : kOperatingIncome ∈ income.cols <;>
    by_cases h3 : kTotalLiab ∈ balance.cols ∧ kEquity ∈ balance.cols <;>
    by_cases h4 : balance.rows = [] <;>
    simp [compute_quality_metrics, h1, h2, h3, h4, List.isEmpty_iff]

/-- Claim C7, witness: on a balance sheet with the two columns and one
row, the pipeline completes. -/
theorem claim_C7_witness :
    (kTotalRevenue ∈ incC7.cols ∧ kOperatingIncome ∈ incC7.cols ∧
     ¬ (kTotalLiab ∈ balC7b.cols ∧ kEquity ∈ balC7b.cols ∧ balC7b.rows = [])) ∧
    (∃ v, compute_quality_metrics symACME incC7 balC7b = Except.ok v) := by
  have h : kTotalRevenue ∈ incC7.cols ∧ kOperatingIncome ∈ incC7.cols ∧
      ¬ (kTotalLiab ∈ balC7b.cols ∧ kEquity ∈ balC7b.cols ∧ balC7b.rows = []) := by
    refine ⟨by decide, by decide, ?_⟩
    intro hc
    exact absurd hc.2.2 (by decide)
  exact ⟨h, (claim_C7.2.2 symACME incC7 balC7b).mpr h⟩

set_option maxHeartbeats 2000000 in
/-- Claim C8 (confirmed): on the cohort ps 10/20/30, pe 15/25/35,
fcf_yield 0.08/0.05/0.02, the valuation bucketer assigns Cheap to the
first (cheapest) company, Neutral to the second and Expensive to the
third: blended scores are 7/9, 4/9 and 1/9, the 0.66 quantile is 124/225
and the 0.33 quantile is 149/450. -/
theorem claim_C8 :
    (add_valuation_signals cohort3).map (fun r => r.valuation_bucket) =
      [sCheap, sNeutral, sExpensive] := by
  have hf1 : ⌊(33/25 : ℚ)⌋ = 1 := by
    rw [Int.floor_eq_iff]
    norm_num
  have hf0 : ⌊(33/50 : ℚ)⌋ = 0 := by
    rw [Int.floor_eq_iff]
    norm_num
  norm_num [add_valuation_signals, cohort3, rankSeries, rankPctAt, quantileQ,
    sortAsc, insertSorted, assemble, List.getD, List.filter, List.filterMap,
    hf1, hf0]

/-- With the URL table empty, the SEC fallback never fires. -/
theorem compute_sga_rd_eq (symbol : String) (t : Table)
    (scrape : String → Option (Option ℚ × Option ℚ)) :
    compute_sga_rd symbol t scrape = (sga_eff_raw t, rd_eff_raw t) := rfl

/-- Claim C9 (confirmed): two snapshots identical except that one names
the SGA line item with the canonical alias and the other with the second
alias receive the same sga_eff from the cyber extractor: alias resolution
takes the first accepted name present, and the resolved columns carry the
same series. -/
theorem claim_C9 (A B : Table)
    (h1 : kSGA1 ∈ A.cols) (h2 : kSGA2 ∉ A.cols)
    (h3 : kSGA1 ∉ B.cols) (h4 : kSGA2 ∈ B.cols)
    (h5 : ∀ c : String, c ≠ kSGA1 → c ≠ kSGA2 → (c ∈ A.cols ↔ c ∈ B.cols))
    (h6 : B.rows = A.rows)
    (h7 : ∀ p, B.val p kSGA2 = A.val p kSGA1)
    (h8 : ∀ p c, c ≠ kSGA1 → c ≠ kSGA2 → B.val p c = A.val p c)
    (symbol : String) (scrape : String → Option (Option ℚ × Option ℚ)) :
    (compute_sga_rd symbol A scrape).1 = (compute_sga_rd symbol B scrape).1 := by
  rw [compute_sga_rd_eq, compute_sga_rd_eq]
  show sga_eff_raw A = sga_eff_raw B
  have hcA : _first_existing_column A sga_candidates = some kSGA1 := by
    simp [_first_existing_column, sga_candidates, List.find?, h1]
  have hcB : _first_existing_column B sga_candidates = some kSGA2 := by
    simp [_first_existing_column, sga_candidates, List.find?, h3, h4]
  unfold sga_eff_raw
  rw [hcA, hcB]
  dsimp only
  have hTR : kTotalRevenue ∈ A.cols ↔ kTotalRevenue ∈ B.cols :=
    h5 _ (by decide) (by decide)
  by_cases htr : kTotalRevenue ∈ A.cols
  · have htrB : kTotalRevenue ∈ B.cols := hTR.mp htr
    rw [if_pos htr, if_pos htrB]
    have hsga : colVals B kSGA2 = colVals A kSGA1 := by
      unfold colVals
      rw [h6]
      simp only [h7]
    have hrev : colVals B kTotalRevenue = colVals A kTotalRevenue := by
      unfold colVals
      rw [h6]
      have hv : ∀ p, B.val p kTotalRevenue = A.val p kTotalRevenue :=
        fun p => h8 p _ (by decide) (by decide)
      simp only [hv]
    rw [hsga, hrev]
  · rw [if_neg htr, if_neg (fun hh => htr (hTR.mpr hh))]

/-- Claim C9, witness: the renaming invariance applied to two concrete
one-period tables that differ only in the SGA column name. -/
theorem claim_C9_witness :
    (kSGA1 ∈ tA9.cols) ∧ (kSGA2 ∉ tA9.cols) ∧ (kSGA1 ∉ tB9.cols) ∧
    (kSGA2 ∈ tB9.cols) ∧
    (compute_sga_rd symACME tA9 (fun _ => none)).1 =
      (compute_sga_rd symACME tB9 (fun _ => none)).1 :=
  ⟨by decide, by decide, by decide, by decide,
   claim_C9 tA9 tB9 (by decide) (by decide) (by decide) (by decide)
     (by
       intro c hc1 hc2
       simp [tA9, tB9, hc1, hc2])
     rfl
     (by
       intro p
       simp [tA9, tB9])
     (by
       intro p c hc1 hc2
       simp [tA9, tB9, hc1, hc2])
     symACME (fun _ => none)⟩

/-- Quality points of the record whose only entry is a quality_score
key. -/
theorem qualityS_mQKey : qualityS mQKey = 0 := by
  simp [qualityS, mQKey, upd, emptyM, kRoic, kStd, kRevC, kEpsC, kDte, kQuality,
    optPts]

/-- Claim C10, counterexample: an input mapping that already contains a
quality_score entry of 50 does not keep that value: the scorer overwrites
the key with the computed score (here 0, since no metric is defined), so
not every input key survives with its value unchanged. -/
theorem claim_C10_counterexample :
    score_quality mQKey kQuality = some 0 ∧ mQKey kQuality = some 50 ∧
    (some (0 : ℚ)) ≠ some (50 : ℚ) := by
  refine ⟨?_, ?_, by norm_num⟩
  · rw [score_quality_eval, qualityS_mQKey]
    norm_num
  · rw [mQKey]
    exact upd_same _ _ _

/-- Claim C10 (amended): the scorers return the input mapping with only
the score keys changed: every key other than quality_score survives
score_quality unchanged, every key other than the three cyber score keys
survives score_cyber_styles unchanged, and the score keys are always set
to a defined computed value — overwriting any same-named input entry. -/
theorem claim_C10 :
    (∀ (m : MetricsRecord) (k : String), k ≠ kQuality → score_quality m k = m k) ∧
    (∀ (m : MetricsRecord) (k : String), k ≠ kGrowth → k ≠ kProf → k ≠ kBal →
      score_cyber_styles m k = m k) ∧
    (∀ m : MetricsRecord, (score_quality m kQuality).isSome) ∧
    (∀ m : MetricsRecord, (score_cyber_styles m kGrowth).isSome ∧
      (score_cyber_styles m kProf).isSome ∧ (score_cyber_styles m kBal).isSome) := by
  refine ⟨?_, ?_, ?_, ?_⟩
  · intro m k h
    simp [score_quality, h]
  · intro m k h1 h2 h3
    simp [score_cyber_styles, h1, h2, h3]
  · intro m
    rw [score_quality_eval]
    rfl
  · intro m
    refine ⟨?_, ?_, ?_⟩
    · rw [styles_growth, growth_score_eval]
      rfl
    · rw [styles_prof, prof_score_eval]
      rfl
    · rw [styles_bal, balanced_score_eval]
      rfl

/-- Claim C10, witness: the frame property applied at the roic key of a
concrete record. -/
theorem claim_C10_witness :
    kRoic ≠ kQuality ∧ score_quality mRoicOnly kRoic = some 0.25 :=
  ⟨by decide,
   (claim_C10.1 mRoicOnly kRoic (by decide)).trans
     (by
       rw [mRoicOnly]
       exact upd_same _ _ _)⟩
